import Mathlib

/-!
Verification of the RSocket binary framing codec (rsocket-js).

This file gives a shallow embedding of the codec sources
(`RSocketBinaryFraming.js`, `RSocketBufferUtils.js`, `RSocketEncoding.js`)
and proves the testable properties of the specification against it.

A byte buffer (the `ByteBuffer` of bytebuffer.js, as used by the codec) is
modelled as a `List Nat` of bytes; writes store the low 8 bits of the value
(`% 256`), as the byte-level writers of the library do, and writes past the
end of the buffer are dropped (the codec always allocates buffers of the
exact size before writing).  All multi-byte integers are big-endian, as the
wire format requires.
-/

namespace RSocket

/-- A byte buffer: a list of bytes (each stored value is `< 256`). -/
abbrev Buffer := List Nat

/-- `ByteBuffer.allocate(n)`: a zero-filled buffer of length `n`. -/
def allocate (n : Nat) : Buffer := List.replicate n 0

/-- Store the bytes of `bs` (each reduced mod 256) at consecutive positions
starting at `off`.  All byte-level writers of the model go through this. -/
def writeBytes : Buffer → Nat → List Nat → Buffer
  | buf, _, [] => buf
  | buf, off, b :: bs => writeBytes (buf.set off (b % 256)) (off + 1) bs

/-- The big-endian bytes of the low `n * 8` bits of `v`(most significant
byte first). -/
def beBytes : Nat → Nat → List Nat
  | 0, _ => []
  | k + 1, v => (v / 2 ^ (8 * k)) % 256 :: beBytes k v

/-- Read one byte (`ByteBuffer.readUint8`); out-of-range reads give 0. -/
def readUint8 (buf : Buffer) (off : Nat) : Nat := buf.getD off 0

/-- Read `n` bytes at `off` as a big-endian unsigned integer. -/
def readBE : Buffer → Nat → Nat → Nat
  | _, _, 0 => 0
  | buf, off, k + 1 => buf.getD off 0 * 2 ^ (8 * k) + readBE buf (off + 1) k

/-- `ByteBuffer.slice(start, end)`: the bytes in `[s, e)`. -/
def slice (buf : Buffer) (s e : Nat) : Buffer := (buf.take e).drop s

/-- `ByteBuffer.writeUint8`. -/
def writeUint8 (buf : Buffer) (v off : Nat) : Buffer := writeBytes buf off [v]

/-- `ByteBuffer.writeUint16` (big-endian). -/
def writeUint16 (buf : Buffer) (v off : Nat) : Buffer := writeBytes buf off (beBytes 2 v)

/-- `ByteBuffer.writeUint32` (big-endian). -/
def writeUint32 (buf : Buffer) (v off : Nat) : Buffer := writeBytes buf off (beBytes 4 v)

/-- `ByteBuffer.writeUint64` (big-endian). -/
def writeUint64 (buf : Buffer) (v off : Nat) : Buffer := writeBytes buf off (beBytes 8 v)

/-- The unsigned 32-bit pattern of a (possibly negative) integer, as the
bitwise coercions of JavaScript produce for `writeInt32`/`writeUint32`. -/
def wrap32 (v : Int) : Nat := (v % (2 ^ 32 : Int)).toNat

/-- `ByteBuffer.writeInt32` (big-endian, two's complement). -/
def writeInt32 (buf : Buffer) (v : Int) (off : Nat) : Buffer :=
  writeBytes buf off (beBytes 4 (wrap32 v))

/-- `ByteBuffer.readUint16` (big-endian). -/
def readUint16 (buf : Buffer) (off : Nat) : Nat := readBE buf off 2

/-- `ByteBuffer.readUint32` (big-endian). -/
def readUint32 (buf : Buffer) (off : Nat) : Nat := readBE buf off 4

/-- `ByteBuffer.readUint64(..).toNumber()` (big-endian). -/
def readUint64 (buf : Buffer) (off : Nat) : Nat := readBE buf off 8

/-- `ByteBuffer.readInt32` (big-endian, two's complement). -/
def readInt32 (buf : Buffer) (off : Nat) : Int :=
  let n := readBE buf off 4
  if n < 2 ^ 31 then (n : Int) else (n : Int) - 2 ^ 32

/-- `ByteBuffer.readInt16` (big-endian, two's complement). -/
def readInt16 (buf : Buffer) (off : Nat) : Int :=
  let n := readBE buf off 2
  if n < 2 ^ 15 then (n : Int) else (n : Int) - 2 ^ 16

/-- `source.copyTo(target, targetOff, sourceOff, sourceLimit)` of
bytebuffer.js: copy the bytes `[sourceOff, sourceLimit)` of `src` into
`dst` starting at `dstOff`. -/
def copyTo (src dst : Buffer) (dstOff srcOff srcLimit : Nat) : Buffer :=
  writeBytes dst dstOff (slice src srcOff srcLimit)

/-! ### Basic lemmas about the byte-level primitives -/

theorem beBytes_length (n v : Nat) : (beBytes n v).length = n := by
  induction n generalizing v with
  | zero => rfl
  | succ k ih => simp [beBytes, ih]

theorem beBytes_lt (n v : Nat) : ∀ b ∈ beBytes n v, b < 256 := by
  induction n generalizing v with
  | zero => simp [beBytes]
  | succ k ih =>
    simp only [beBytes, List.mem_cons]
    rintro b (rfl | hb)
    · exact Nat.mod_lt _ (by norm_num)
    · exact ih v b hb

theorem map_mod_of_lt {bs : List Nat} (h : ∀ b ∈ bs, b < 256) :
    bs.map (· % 256) = bs := by
  induction bs with
  | nil => rfl
  | cons b bs ih =>
    simp only [List.map_cons]
    rw [Nat.mod_eq_of_lt (h b (by simp)), ih (fun x hx => h x (by simp [hx]))]

theorem writeBytes_length (bs : List Nat) (buf : Buffer) (off : Nat) :
    (writeBytes buf off bs).length = buf.length := by
  induction bs generalizing buf off with
  | nil => rfl
  | cons b bs ih => simp [writeBytes, ih]

theorem writeBytes_eq (bs : List Nat) (buf : Buffer) (off : Nat)
    (h : off + bs.length ≤ buf.length) :
    writeBytes buf off bs =
      buf.take off ++ bs.map (· % 256) ++ buf.drop (off + bs.length) := by
  induction bs generalizing buf off with
  | nil => simp [writeBytes]
  | cons b bs ih =>
    have hoff : off < buf.length := by simp only [List.length_cons] at h; omega
    have hset : buf.set off (b % 256) =
        buf.take off ++ b % 256 :: buf.drop (off + 1) := by
      rw [List.set_eq_take_append_cons_drop, if_pos hoff]
    have hlen : (buf.take off).length = off := by
      rw [List.length_take]; omega
    rw [writeBytes, ih _ (off + 1)
      (by rw [List.length_set]; simp only [List.length_cons] at h; omega), hset]
    have e1 : (buf.take off ++ b % 256 :: buf.drop (off + 1)).take (off + 1)
        = buf.take off ++ [b % 256] := by
      rw [show off + 1 = (buf.take off).length + 1 from by rw [hlen], List.take_append]
      rfl
    have e2 : (buf.take off ++ b % 256 :: buf.drop (off + 1)).drop (off + 1 + bs.length)
        = buf.drop (off + (b :: bs).length) := by
      rw [show off + 1 + bs.length = (buf.take off).length + (1 + bs.length) from by
        rw [hlen]; omega, List.drop_append]
      rw [show (1 : Nat) + bs.length = bs.length + 1 from by omega, List.drop_succ_cons,
        List.drop_drop]
      simp only [List.length_cons]
      congr 1
      omega
    rw [e1, e2]
    simp [List.append_assoc]

theorem writeBytes_fill (pre rest bs : List Nat) (off : Nat)
    (hoff : off = pre.length) (h : bs.length ≤ rest.length)
    (hb : ∀ b ∈ bs, b < 256) :
    writeBytes (pre ++ rest) off bs = pre ++ bs ++ rest.drop bs.length := by
  subst hoff
  rw [writeBytes_eq bs (pre ++ rest) pre.length
    (by simp only [List.length_append]; omega)]
  rw [map_mod_of_lt hb, List.take_left, List.drop_append]

theorem readBE_append (pre rest : Buffer) (k n : Nat) :
    readBE (pre ++ rest) (pre.length + k) n = readBE rest k n := by
  induction n generalizing k with
  | zero => rfl
  | succ m ih =>
    rw [readBE, readBE]
    rw [List.getD_append_right _ _ _ _ (by omega), Nat.add_sub_cancel_left]
    have h1 : pre.length + k + 1 = pre.length + (k + 1) := by omega
    rw [h1, ih (k + 1)]

theorem readBE_beBytes (n v : Nat) (rest : Buffer) :
    readBE (beBytes n v ++ rest) 0 n = v % 2 ^ (8 * n) := by
  induction n generalizing rest v with
  | zero => simp [readBE, beBytes, Nat.mod_one]
  | succ k ih =>
    rw [beBytes, List.cons_append, readBE]
    have hshift : readBE ((v / 2 ^ (8 * k)) % 256 :: (beBytes k v ++ rest)) (0 + 1) k
        = readBE (beBytes k v ++ rest) 0 k := by
      have := readBE_append [(v / 2 ^ (8 * k)) % 256] (beBytes k v ++ rest) 0 k
      simpa using this
    rw [hshift, ih]
    have hgd : ((v / 2 ^ (8 * k)) % 256 :: (beBytes k v ++ rest)).getD 0 0
        = (v / 2 ^ (8 * k)) % 256 := rfl
    rw [hgd]
    have hp : 2 ^ (8 * (k + 1)) = 2 ^ (8 * k) * 256 := by
      rw [show 8 * (k + 1) = 8 * k + 8 from by omega, pow_add]
      norm_num
    rw [hp, Nat.mod_mul]
    ring

theorem readBE_at (pre : Buffer) (n v : Nat) (rest : Buffer) (off : Nat)
    (hoff : off = pre.length) :
    readBE (pre ++ beBytes n v ++ rest) off n = v % 2 ^ (8 * n) := by
  subst hoff
  rw [List.append_assoc]
  have := readBE_append pre (beBytes n v ++ rest) 0 n
  simp only [Nat.add_zero] at this
  rw [this, readBE_beBytes]

theorem getD_at (pre : Buffer) (b : Nat) (rest : Buffer) (off : Nat)
    (hoff : off = pre.length) :
    (pre ++ b :: rest).getD off 0 = b := by
  subst hoff
  rw [List.getD_append_right _ _ _ _ (le_refl _)]
  simp

theorem slice_at (pre mid rest : Buffer) (s e : Nat)
    (hs : s = pre.length) (he : e = pre.length + mid.length) :
    slice (pre ++ mid ++ rest) s e = mid := by
  subst hs he
  rw [slice, List.append_assoc, List.take_append, List.drop_left]
  simp [List.take_left]

theorem slice_suffix (pre rest : Buffer) (s e : Nat)
    (hs : s = pre.length) (he : e = (pre ++ rest).length) :
    slice (pre ++ rest) s e = rest := by
  subst hs he
  rw [slice, List.take_length, List.drop_left]

theorem slice_nil (buf : Buffer) (s e : Nat) (h : e ≤ s) :
    slice buf s e = [] := by
  rw [slice]
  exact List.drop_eq_nil_of_le (le_trans (List.length_take_le _ _) h)

/-! ### Bitwise arithmetic lemmas -/

theorem lor_mul_two_pow_add (a b k : Nat) (hb : b < 2 ^ k) :
    a * 2 ^ k ||| b = a * 2 ^ k + b := by
  apply Nat.eq_of_testBit_eq
  intro i
  rw [Nat.testBit_lor]
  rcases Nat.lt_or_ge i k with h | h
  · have h1 : (a * 2 ^ k).testBit i = false := by
      rw [← Nat.shiftLeft_eq, Nat.testBit_shiftLeft]
      simp [Nat.not_le.mpr h]
    have hmod : (a * 2 ^ k + b) % 2 ^ k = b := by
      rw [Nat.mul_add_mod', Nat.mod_eq_of_lt hb]
    have h2 : (a * 2 ^ k + b).testBit i = b.testBit i := by
      have hmt := Nat.testBit_mod_two_pow (a * 2 ^ k + b) k i
      rw [hmod] at hmt
      simp [h] at hmt
      exact hmt.symm
    rw [h1, h2, Bool.false_or]
  · have h2 : b.testBit i = false :=
      Nat.testBit_lt_two_pow (lt_of_lt_of_le hb (Nat.pow_le_pow_right (by norm_num) h))
    have hdiv : (a * 2 ^ k + b) / 2 ^ k = a := by
      rw [Nat.mul_comm a, Nat.mul_add_div (by positivity), Nat.div_eq_of_lt hb]
      omega
    have hs : (a * 2 ^ k + b).testBit i = a.testBit (i - k) := by
      have hsr := Nat.testBit_shiftRight (i := k) (j := i - k) (a * 2 ^ k + b)
      rw [Nat.shiftRight_eq_div_pow, hdiv] at hsr
      rw [show i = k + (i - k) from by omega, ← hsr, Nat.add_sub_cancel_left]
    have hl : (a * 2 ^ k).testBit i = a.testBit (i - k) := by
      rw [← Nat.shiftLeft_eq, Nat.testBit_shiftLeft]
      simp [h]
    rw [h2, hs, hl, Bool.or_false]

theorem lor_shiftLeft_add (a b k : Nat) (hb : b < 2 ^ k) :
    a <<< k ||| b = a * 2 ^ k + b := by
  rw [Nat.shiftLeft_eq]
  exact lor_mul_two_pow_add a b k hb

/-! ### Protocol constants

`RSocketBinaryFraming.js` imports its constants from `RSocketFrame.js`,
which is not among the provided sources; the constants below are modelled
from the spec (sections 3.1 and 6.4), which lists their values. -/

/-- `FRAME_HEADER_SIZE`: stream id (4 bytes) plus type/flags word (2 bytes). -/
def FRAME_HEADER_SIZE : Nat := 6

/-- `UINT24_SIZE`: size of frame-length and metadata-length fields. -/
def UINT24_SIZE : Nat := 3

/-- Modelled from the spec (6.4): low ten bits of the type/flags word. -/
def FLAGS_MASK : Nat := 0x3FF

/-- Modelled from the spec (6.4): the frame type occupies the high 6 bits. -/
def FRAME_TYPE_OFFFSET : Nat := 10

/-- Modelled from the spec (6.4): `MAX_CODE = 2^31 - 1`. -/
def MAX_CODE : Int := 2 ^ 31 - 1

/-- Modelled from the spec (6.4): `MAX_KEEPALIVE = 2^31 - 1`. -/
def MAX_KEEPALIVE : Int := 2 ^ 31 - 1

/-- Modelled from the spec (6.4): `MAX_LIFETIME = 2^31 - 1`. -/
def MAX_LIFETIME : Int := 2 ^ 31 - 1

/-- Modelled from the spec (6.4): `MAX_RESUME_LENGTH = 65535`. -/
def MAX_RESUME_LENGTH : Int := 65535

/-- Modelled from the spec (3.1): frame type codes. -/
def FRAME_TYPES_SETUP : Nat := 0x01

/-- Modelled from the spec (3.1). -/
def FRAME_TYPES_LEASE : Nat := 0x02

/-- Modelled from the spec (3.1). -/
def FRAME_TYPES_KEEPALIVE : Nat := 0x03

/-- Modelled from the spec (3.1). -/
def FRAME_TYPES_REQUEST_RESPONSE : Nat := 0x04

/-- Modelled from the spec (3.1). -/
def FRAME_TYPES_REQUEST_FNF : Nat := 0x05

/-- Modelled from the spec (3.1). -/
def FRAME_TYPES_REQUEST_STREAM : Nat := 0x06

/-- Modelled from the spec (3.1). -/
def FRAME_TYPES_REQUEST_CHANNEL : Nat := 0x07

/-- Modelled from the spec (3.1). -/
def FRAME_TYPES_REQUEST_N : Nat := 0x08

/-- Modelled from the spec (3.1). -/
def FRAME_TYPES_CANCEL : Nat := 0x09

/-- Modelled from the spec (3.1). -/
def FRAME_TYPES_PAYLOAD : Nat := 0x0A

/-- Modelled from the spec (3.1). -/
def FRAME_TYPES_ERROR : Nat := 0x0B

/-- Modelled from the spec (3.1): the METADATA bit of the 10-bit flags
field (one designated bit; the value used by rsocket-js is `0x100`). -/
def FLAGS_METADATA : Nat := 0x100

/-- Modelled from the spec (3.1): `isMetadata` of `RSocketFrame.js`, true
when the METADATA flag bit is set. -/
def isMetadata (flags : Nat) : Bool := flags &&& FLAGS_METADATA == FLAGS_METADATA

/-! ### Encoders

The codec treats payload-bearing fields through an Encoder abstraction
(spec 3.3, `RSocketEncoding.js`): `byteLength` gives the encoded size,
`encode` writes the bytes at an offset and returns the next offset, and
`decode` reads a value back from a byte range.  An encoder is determined
by the byte image `enc` it writes and the reading function `dec`; the
buffer-level operations below are derived from them exactly as the spec
describes. -/

structure Encoder (α : Type) where
  enc : α → List Nat
  dec : List Nat → α

/-- `Encoder.byteLength(value)`: the encoded size in bytes. -/
def Encoder.byteLength (e : Encoder α) (v : α) : Nat := (e.enc v).length

/-- `Encoder.encode(value, buffer, offset)`: write the encoded bytes at
`offset`, returning the buffer and the next offset. -/
def Encoder.encode (e : Encoder α) (v : α) (buf : Buffer) (off : Nat) : Buffer × Nat :=
  (writeBytes buf off (e.enc v), off + (e.enc v).length)

/-- `Encoder.decode(buffer, start, end)`: read a value from `[start, end)`. -/
def Encoder.decode (e : Encoder α) (buf : Buffer) (s t : Nat) : α :=
  e.dec (slice buf s t)

/-- A lawful encoder (spec 3.3 invariants): decode inverts encode, and the
encoded image consists of bytes. -/
def Encoder.Lawful (e : Encoder α) : Prop :=
  (∀ v, e.dec (e.enc v) = v) ∧ ∀ v, ∀ b ∈ e.enc v, b < 256

/-- The Encoders object (`RSocketEncoding.js`): one encoder per
payload-bearing field.  The mime-type and message fields always hold
strings, modelled as lists of Unicode code points (`Str`). -/
abbrev Str := List Nat

structure Encoders (α : Type) where
  data : Encoder α
  dataMimeType : Encoder Str
  message : Encoder Str
  metadata : Encoder α
  metadataMimeType : Encoder Str
  resumeToken : Encoder α

/-- All six encoders of the set are lawful. -/
def Encoders.Lawful (E : Encoders α) : Prop :=
  E.data.Lawful ∧ E.dataMimeType.Lawful ∧ E.message.Lawful ∧
    E.metadata.Lawful ∧ E.metadataMimeType.Lawful ∧ E.resumeToken.Lawful

/-! ### The Frame model

A tagged variant with eleven cases (`RSocketTypes.js`); numeric fields
that the codec reads back through signed reads are carried as `Int`,
exactly as JavaScript numbers hold them. -/

inductive Frame (α : Type) where
  | setup (streamId : Int) (flags : Nat) (majorVersion minorVersion : Nat)
      (keepAlive lifetime : Int) (resumeToken : Option α)
      (metadataMimeType dataMimeType : Option Str) (metadata data : Option α)
  | error (streamId : Int) (flags : Nat) (code : Int) (message : Option Str)
  | keepalive (streamId : Int) (flags : Nat) (lastReceivedPosition : Nat)
      (data : Option α)
  | lease (streamId : Int) (flags : Nat) (ttl requestCount : Nat)
      (metadata : Option α)
  | requestFnf (streamId : Int) (flags : Nat) (metadata data : Option α)
  | requestResponse (streamId : Int) (flags : Nat) (metadata data : Option α)
  | requestStream (streamId : Int) (flags : Nat) (requestN : Int)
      (metadata data : Option α)
  | requestChannel (streamId : Int) (flags : Nat) (requestN : Int)
      (metadata data : Option α)
  | requestN (streamId : Int) (flags : Nat) (requestN : Int)
  | cancel (streamId : Int) (flags : Nat)
  | payload (streamId : Int) (flags : Nat) (metadata data : Option α)
deriving DecidableEq

/-- The `type` tag of a frame (the discriminant of the source records). -/
def Frame.type : Frame α → Nat
  | .setup .. => FRAME_TYPES_SETUP
  | .error .. => FRAME_TYPES_ERROR
  | .keepalive .. => FRAME_TYPES_KEEPALIVE
  | .lease .. => FRAME_TYPES_LEASE
  | .requestFnf .. => FRAME_TYPES_REQUEST_FNF
  | .requestResponse .. => FRAME_TYPES_REQUEST_RESPONSE
  | .requestStream .. => FRAME_TYPES_REQUEST_STREAM
  | .requestChannel .. => FRAME_TYPES_REQUEST_CHANNEL
  | .requestN .. => FRAME_TYPES_REQUEST_N
  | .cancel .. => FRAME_TYPES_CANCEL
  | .payload .. => FRAME_TYPES_PAYLOAD

/-! ### RSocketBufferUtils.js -/

/-- `readUint24(buffer, offset)`: three bytes, big-endian. -/
def readUint24 (buf : Buffer) (offset : Nat) : Nat :=
  let val1 := readUint8 buf offset <<< 16
  let val2 := readUint8 buf (offset + 1) <<< 8
  let val3 := readUint8 buf (offset + 2)
  val1 ||| val2 ||| val3

/-- `writeUint24(buffer, value, offset)`: three bytes, big-endian, value
truncated to its low 24 bits. -/
def writeUint24 (buf : Buffer) (value offset : Nat) : Buffer :=
  let b1 := writeUint8 buf (value >>> 16) offset
  let b2 := writeUint8 b1 (value >>> 8 &&& 0xff) (offset + 1)
  writeUint8 b2 (value &&& 0xff) (offset + 2)

/-- The byte image of an optional field: absent fields write nothing. -/
def optBytes (e : Encoder α) : Option α → List Nat
  | some v => e.enc v
  | none => []

/-- `field != null ? encoders.x.byteLength(field) : 0`, as the serializers
compute the size of an optional field. -/
def optionByteLength (e : Encoder α) (o : Option α) : Nat :=
  match o with
  | some v => e.byteLength v
  | none => 0

/-- `if (field != null) offset = encoders.x.encode(field, buffer, offset)`:
encode an optional field, leaving buffer and offset alone when absent. -/
def optionEncode (e : Encoder α) (o : Option α) (buf : Buffer) (off : Nat) :
    Buffer × Nat :=
  match o with
  | some v => e.encode v buf off
  | none => (buf, off)

/-! ### RSocketBinaryFraming.js: serialization -/

/-- `writeHeader(frame, buffer)`: stream id at 0, type/flags word at 4,
returning the buffer and the header size. -/
def writeHeader (streamId : Int) (t flags : Nat) (buf : Buffer) : Buffer × Nat :=
  let buf := writeInt32 buf streamId 0
  let buf := writeUint16 buf (t <<< FRAME_TYPE_OFFFSET ||| flags &&& FLAGS_MASK) 4
  (buf, FRAME_HEADER_SIZE)

/-- `getPayloadLength(frame, encoders)`. -/
def getPayloadLength (E : Encoders α) (flags : Nat) (metadata data : Option α) : Nat :=
  let payloadLength := match data with
    | some d => E.data.byteLength d
    | none => 0
  if isMetadata flags then
    let payloadLength := payloadLength + UINT24_SIZE
    match metadata with
    | some m => payloadLength + E.metadata.byteLength m
    | none => payloadLength
  else payloadLength

/-- `writePayload(frame, buffer, encoders, offset)`. -/
def writePayload (E : Encoders α) (flags : Nat) (metadata data : Option α)
    (buf : Buffer) (offset : Nat) : Buffer :=
  let (buf, offset) :=
    if isMetadata flags then
      match metadata with
      | some m =>
        let metaLength := E.metadata.byteLength m
        let buf := writeUint24 buf metaLength offset
        let offset := offset + UINT24_SIZE
        E.metadata.encode m buf offset
      | none => (writeUint24 buf 0 offset, offset + UINT24_SIZE)
    else (buf, offset)
  match data with
  | some d => (E.data.encode d buf offset).1
  | none => buf

/-- `readPayload(buffer, frame, encoders, offset)`: the metadata and data
fields the reader stores into the frame (both start out null). -/
def readPayload (E : Encoders α) (buf : Buffer) (flags : Nat) (offset : Nat) :
    Option α × Option α :=
  let (metadata, offset) :=
    if isMetadata flags then
      let metaLength := readUint24 buf offset
      let offset := offset + UINT24_SIZE
      if metaLength > 0 then
        (some (E.metadata.decode buf offset (offset + metaLength)), offset + metaLength)
      else (none, offset)
    else (none, offset)
  let data := if offset < buf.length then some (E.data.decode buf offset buf.length) else none
  (metadata, data)

/-- `SETUP_FIXED_SIZE`. -/
def SETUP_FIXED_SIZE : Nat := 16

/-- `serializeSetupFrame(frame, encoders)`. -/
def serializeSetupFrame (E : Encoders α) (streamId : Int) (flags : Nat)
    (majorVersion minorVersion : Nat) (keepAlive lifetime : Int)
    (resumeToken : Option α) (metadataMimeType dataMimeType : Option Str)
    (metadata data : Option α) : Buffer :=
  let resumeTokenLength := optionByteLength E.resumeToken resumeToken
  let metadataMimeTypeLength := optionByteLength E.metadataMimeType metadataMimeType
  let dataMimeTypeLength := optionByteLength E.dataMimeType dataMimeType
  let payloadLength := getPayloadLength E flags metadata data
  let buffer := allocate (FRAME_HEADER_SIZE + SETUP_FIXED_SIZE + resumeTokenLength +
    metadataMimeTypeLength + dataMimeTypeLength + payloadLength)
  let (buffer, offset) := writeHeader streamId FRAME_TYPES_SETUP flags buffer
  let buffer := writeUint16 buffer majorVersion offset
  let offset := offset + 2
  let buffer := writeUint16 buffer minorVersion offset
  let offset := offset + 2
  let buffer := writeUint32 buffer (wrap32 keepAlive) offset
  let offset := offset + 4
  let buffer := writeUint32 buffer (wrap32 lifetime) offset
  let offset := offset + 4
  let buffer := writeUint16 buffer resumeTokenLength offset
  let offset := offset + 2
  let (buffer, offset) := optionEncode E.resumeToken resumeToken buffer offset
  let buffer := writeUint8 buffer metadataMimeTypeLength offset
  let offset := offset + 1
  let (buffer, offset) := optionEncode E.metadataMimeType metadataMimeType buffer offset
  let buffer := writeUint8 buffer dataMimeTypeLength offset
  let offset := offset + 1
  let (buffer, offset) := optionEncode E.dataMimeType dataMimeType buffer offset
  writePayload E flags metadata data buffer offset

/-- `ERROR_FIXED_SIZE`. -/
def ERROR_FIXED_SIZE : Nat := 4

/-- `serializeErrorFrame(frame, encoders)`. -/
def serializeErrorFrame (E : Encoders α) (streamId : Int) (flags : Nat)
    (code : Int) (message : Option Str) : Buffer :=
  let messageLength := optionByteLength E.message message
  let buffer := allocate (FRAME_HEADER_SIZE + ERROR_FIXED_SIZE + messageLength)
  let (buffer, offset) := writeHeader streamId FRAME_TYPES_ERROR flags buffer
  let buffer := writeUint32 buffer (wrap32 code) offset
  let offset := offset + 4
  (optionEncode E.message message buffer offset).1

/-- `KEEPALIVE_FIXED_SIZE`. -/
def KEEPALIVE_FIXED_SIZE : Nat := 8

/-- `serializeKeepAliveFrame(frame, encoders)`. -/
def serializeKeepAliveFrame (E : Encoders α) (streamId : Int) (flags : Nat)
    (lastReceivedPosition : Nat) (data : Option α) : Buffer :=
  let dataLength := optionByteLength E.data data
  let buffer := allocate (FRAME_HEADER_SIZE + KEEPALIVE_FIXED_SIZE + dataLength)
  let (buffer, offset) := writeHeader streamId FRAME_TYPES_KEEPALIVE flags buffer
  let buffer := writeUint64 buffer lastReceivedPosition offset
  let offset := offset + 8
  (optionEncode E.data data buffer offset).1

/-- `LEASE_FIXED_SIZE`. -/
def LEASE_FIXED_SIZE : Nat := 8

/-- `serializeLeaseFrame(frame, encoders)`. -/
def serializeLeaseFrame (E : Encoders α) (streamId : Int) (flags : Nat)
    (ttl requestCount : Nat) (metadata : Option α) : Buffer :=
  let metaLength := optionByteLength E.metadata metadata
  let buffer := allocate (FRAME_HEADER_SIZE + LEASE_FIXED_SIZE + metaLength)
  let (buffer, offset) := writeHeader streamId FRAME_TYPES_LEASE flags buffer
  let buffer := writeUint32 buffer ttl offset
  let offset := offset + 4
  let buffer := writeUint32 buffer requestCount offset
  let offset := offset + 4
  (optionEncode E.metadata metadata buffer offset).1

/-- `serializeRequestFrame(frame, encoders)` (REQUEST_FNF and
REQUEST_RESPONSE share this shape). -/
def serializeRequestFrame (E : Encoders α) (t : Nat) (streamId : Int)
    (flags : Nat) (metadata data : Option α) : Buffer :=
  let payloadLength := getPayloadLength E flags metadata data
  let buffer := allocate (FRAME_HEADER_SIZE + payloadLength)
  let (buffer, offset) := writeHeader streamId t flags buffer
  writePayload E flags metadata data buffer offset

/-- `REQUEST_MANY_HEADER`. -/
def REQUEST_MANY_HEADER : Nat := 4

/-- `serializeRequestManyFrame(frame, encoders)` (REQUEST_STREAM and
REQUEST_CHANNEL share this shape). -/
def serializeRequestManyFrame (E : Encoders α) (t : Nat) (streamId : Int)
    (flags : Nat) (requestN : Int) (metadata data : Option α) : Buffer :=
  let payloadLength := getPayloadLength E flags metadata data
  let buffer := allocate (FRAME_HEADER_SIZE + REQUEST_MANY_HEADER + payloadLength)
  let (buffer, offset) := writeHeader streamId t flags buffer
  let buffer := writeUint32 buffer (wrap32 requestN) offset
  let offset := offset + 4
  writePayload E flags metadata data buffer offset

/-- `REQUEST_N_HEADER`. -/
def REQUEST_N_HEADER : Nat := 4

/-- `serializeRequestNFrame(frame, encoders)`. -/
def serializeRequestNFrame (streamId : Int) (flags : Nat) (requestN : Int) : Buffer :=
  let buffer := allocate (FRAME_HEADER_SIZE + REQUEST_N_HEADER)
  let (buffer, offset) := writeHeader streamId FRAME_TYPES_REQUEST_N flags buffer
  writeUint32 buffer (wrap32 requestN) offset

/-- `serializeCancelFrame(frame, encoders)`. -/
def serializeCancelFrame (streamId : Int) (flags : Nat) : Buffer :=
  let buffer := allocate FRAME_HEADER_SIZE
  (writeHeader streamId FRAME_TYPES_CANCEL flags buffer).1

/-- `serializePayloadFrame(frame, encoders)`. -/
def serializePayloadFrame (E : Encoders α) (streamId : Int) (flags : Nat)
    (metadata data : Option α) : Buffer :=
  let payloadLength := getPayloadLength E flags metadata data
  let buffer := allocate (FRAME_HEADER_SIZE + payloadLength)
  let (buffer, offset) := writeHeader streamId FRAME_TYPES_PAYLOAD flags buffer
  writePayload E flags metadata data buffer offset

/-- `serializeFrame(frame, encoders)`: dispatch on the frame tag.  The
`default: invariant(false)` branch of the source is unreachable here
because the `Frame` sum has exactly the eleven supported variants. -/
def serializeFrame (f : Frame α) (E : Encoders α) : Buffer :=
  match f with
  | .setup sid fl major minor ka lt rt mm dm md d =>
    serializeSetupFrame E sid fl major minor ka lt rt mm dm md d
  | .payload sid fl md d => serializePayloadFrame E sid fl md d
  | .error sid fl code msg => serializeErrorFrame E sid fl code msg
  | .keepalive sid fl pos d => serializeKeepAliveFrame E sid fl pos d
  | .requestFnf sid fl md d => serializeRequestFrame E FRAME_TYPES_REQUEST_FNF sid fl md d
  | .requestResponse sid fl md d =>
    serializeRequestFrame E FRAME_TYPES_REQUEST_RESPONSE sid fl md d
  | .requestStream sid fl rn md d =>
    serializeRequestManyFrame E FRAME_TYPES_REQUEST_STREAM sid fl rn md d
  | .requestChannel sid fl rn md d =>
    serializeRequestManyFrame E FRAME_TYPES_REQUEST_CHANNEL sid fl rn md d
  | .requestN sid fl rn => serializeRequestNFrame sid fl rn
  | .cancel sid fl => serializeCancelFrame sid fl
  | .lease sid fl ttl rc md => serializeLeaseFrame E sid fl ttl rc md

/-- `serializeFrameWithLength(frame, encoders)`: 24-bit length prefix
followed by the frame bytes. -/
def serializeFrameWithLength (f : Frame α) (E : Encoders α) : Buffer :=
  let buffer := serializeFrame f E
  let lengthPrefixed := allocate (buffer.length + UINT24_SIZE)
  let lengthPrefixed := writeUint24 lengthPrefixed buffer.length 0
  copyTo buffer lengthPrefixed UINT24_SIZE 0 buffer.length

/-! ### RSocketBinaryFraming.js: deserialization

Parse-time invariant violations (`invariant(...)` in the source) are
modelled as `Except.error` with the message of the source. -/

/-- `deserializeSetupFrame(buffer, streamId, flags, encoders)`. -/
def deserializeSetupFrame (buf : Buffer) (streamId : Int) (flags : Nat)
    (E : Encoders α) : Except String (Frame α) :=
  if ¬ streamId = 0 then
    .error "Invalid SETUP frame, expected stream id to be 0."
  else
    let offset := FRAME_HEADER_SIZE
    let majorVersion := readUint16 buf offset
    let offset := offset + 2
    let minorVersion := readUint16 buf offset
    let offset := offset + 2
    let keepAlive := readInt32 buf offset
    let offset := offset + 4
    if ¬ (0 ≤ keepAlive ∧ keepAlive ≤ MAX_KEEPALIVE) then
      .error "Invalid SETUP frame, expected keepAlive to be >= 0 and <= max."
    else
      let lifetime := readInt32 buf offset
      let offset := offset + 4
      if ¬ (0 ≤ lifetime ∧ lifetime ≤ MAX_LIFETIME) then
        .error "Invalid SETUP frame, expected lifetime to be >= 0 and <= max."
      else
        let resumeTokenLength := readInt16 buf offset
        let offset := offset + 2
        if ¬ (0 ≤ resumeTokenLength ∧ resumeTokenLength ≤ MAX_RESUME_LENGTH) then
          .error "Invalid SETUP frame, expected resumeToken length to be >= 0 and <= max."
        else
          let resumeToken := E.resumeToken.decode buf offset (offset + resumeTokenLength.toNat)
          let offset := offset + resumeTokenLength.toNat
          let metadataMimeTypeLength := readUint8 buf offset
          let offset := offset + 1
          let metadataMimeType := E.metadataMimeType.decode buf offset
            (offset + metadataMimeTypeLength)
          let offset := offset + metadataMimeTypeLength
          let dataMimeTypeLength := readUint8 buf offset
          let offset := offset + 1
          let dataMimeType := E.dataMimeType.decode buf offset (offset + dataMimeTypeLength)
          let offset := offset + dataMimeTypeLength
          let (metadata, data) := readPayload E buf flags offset
          .ok (.setup streamId flags majorVersion minorVersion keepAlive lifetime
            (some resumeToken) (some metadataMimeType) (some dataMimeType) metadata data)

/-- `deserializeErrorFrame(buffer, streamId, flags, encoders)`.  Note that
the source performs no check on the stream id of an ERROR frame. -/
def deserializeErrorFrame (buf : Buffer) (streamId : Int) (flags : Nat)
    (E : Encoders α) : Except String (Frame α) :=
  let offset := FRAME_HEADER_SIZE
  let code := readInt32 buf offset
  let offset := offset + 4
  if ¬ (0 ≤ code ∧ code ≤ MAX_CODE) then
    .error "Invalid ERROR frame, expected code to be >= 0 and <= max."
  else
    let messageLength := buf.length - offset
    let message : Str :=
      if messageLength > 0 then E.message.decode buf offset (offset + messageLength) else []
    .ok (.error streamId flags code (some message))

/-- `deserializeKeepAliveFrame(buffer, streamId, flags, encoders)`. -/
def deserializeKeepAliveFrame (buf : Buffer) (streamId : Int) (flags : Nat)
    (E : Encoders α) : Except String (Frame α) :=
  if ¬ streamId = 0 then
    .error "Invalid KEEPALIVE frame, expected stream id to be 0."
  else
    let offset := FRAME_HEADER_SIZE
    let lastReceivedPosition := readUint64 buf offset
    let offset := offset + 8
    let data := if offset < buf.length then some (E.data.decode buf offset buf.length) else none
    .ok (.keepalive streamId flags lastReceivedPosition data)

/-- `deserializeLeaseFrame(buffer, streamId, flags, encoders)`. -/
def deserializeLeaseFrame (buf : Buffer) (streamId : Int) (flags : Nat)
    (E : Encoders α) : Except String (Frame α) :=
  if ¬ streamId = 0 then
    .error "Invalid LEASE frame, expected stream id to be 0."
  else
    let offset := FRAME_HEADER_SIZE
    let ttl := readUint32 buf offset
    let offset := offset + 4
    let requestCount := readUint32 buf offset
    let offset := offset + 4
    let metadata :=
      if offset < buf.length then some (E.metadata.decode buf offset buf.length) else none
    .ok (.lease streamId flags ttl requestCount metadata)

/-- `deserializeRequestFnfFrame(buffer, streamId, flags, encoders)`. -/
def deserializeRequestFnfFrame (buf : Buffer) (streamId : Int) (flags : Nat)
    (E : Encoders α) : Except String (Frame α) :=
  if ¬ streamId > 0 then
    .error "Invalid REQUEST_FNF frame, expected stream id to be > 0."
  else
    let (metadata, data) := readPayload E buf flags FRAME_HEADER_SIZE
    .ok (.requestFnf streamId flags metadata data)

/-- `deserializeRequestResponseFrame(buffer, streamId, flags, encoders)`. -/
def deserializeRequestResponseFrame (buf : Buffer) (streamId : Int) (flags : Nat)
    (E : Encoders α) : Except String (Frame α) :=
  if ¬ streamId > 0 then
    .error "Invalid REQUEST_RESPONSE frame, expected stream id to be > 0."
  else
    let (metadata, data) := readPayload E buf flags FRAME_HEADER_SIZE
    .ok (.requestResponse streamId flags metadata data)

/-- `deserializeRequestStreamFrame(buffer, streamId, flags, encoders)`. -/
def deserializeRequestStreamFrame (buf : Buffer) (streamId : Int) (flags : Nat)
    (E : Encoders α) : Except String (Frame α) :=
  if ¬ streamId > 0 then
    .error "Invalid REQUEST_STREAM frame, expected stream id to be > 0."
  else
    let offset := FRAME_HEADER_SIZE
    let requestN := readInt32 buf offset
    let offset := offset + 4
    if ¬ requestN > 0 then
      .error "Invalid REQUEST_STREAM frame, expected requestN to be > 0."
    else
      let (metadata, data) := readPayload E buf flags offset
      .ok (.requestStream streamId flags requestN metadata data)

/-- `deserializeRequestChannelFrame(buffer, streamId, flags, encoders)`. -/
def deserializeRequestChannelFrame (buf : Buffer) (streamId : Int) (flags : Nat)
    (E : Encoders α) : Except String (Frame α) :=
  if ¬ streamId > 0 then
    .error "Invalid REQUEST_CHANNEL frame, expected stream id to be > 0."
  else
    let offset := FRAME_HEADER_SIZE
    let requestN := readInt32 buf offset
    let offset := offset + 4
    if ¬ requestN > 0 then
      .error "Invalid REQUEST_STREAM frame, expected requestN to be > 0."
    else
      let (metadata, data) := readPayload E buf flags offset
      .ok (.requestChannel streamId flags requestN metadata data)

/-- `deserializeRequestNFrame(buffer, streamId, flags, encoders)`. -/
def deserializeRequestNFrame (buf : Buffer) (streamId : Int) (flags : Nat)
    (_E : Encoders α) : Except String (Frame α) :=
  if ¬ streamId > 0 then
    .error "Invalid REQUEST_N frame, expected stream id to be > 0."
  else
    let requestN := readInt32 buf FRAME_HEADER_SIZE
    if ¬ requestN > 0 then
      .error "Invalid REQUEST_STREAM frame, expected requestN to be > 0."
    else
      .ok (.requestN streamId flags requestN)

/-- `deserializeCancelFrame(buffer, streamId, flags, encoders)`. -/
def deserializeCancelFrame (_buf : Buffer) (streamId : Int) (flags : Nat)
    (_E : Encoders α) : Except String (Frame α) :=
  if ¬ streamId > 0 then
    .error "Invalid CANCEL frame, expected stream id to be > 0."
  else
    .ok (.cancel streamId flags)

/-- `deserializePayloadFrame(buffer, streamId, flags, encoders)`. -/
def deserializePayloadFrame (buf : Buffer) (streamId : Int) (flags : Nat)
    (E : Encoders α) : Except String (Frame α) :=
  if ¬ streamId > 0 then
    .error "Invalid PAYLOAD frame, expected stream id to be > 0."
  else
    let (metadata, data) := readPayload E buf flags FRAME_HEADER_SIZE
    .ok (.payload streamId flags metadata data)

/-- `deserializeFrame(buffer, encoders)`: header read and dispatch on the
frame type, in the case order of the source switch. -/
def deserializeFrame (buf : Buffer) (E : Encoders α) : Except String (Frame α) :=
  let streamId := readInt32 buf 0
  if ¬ streamId ≥ 0 then
    .error "Invalid frame, expected a positive stream id."
  else
    let typeAndFlags := readUint16 buf 4
    let t := typeAndFlags >>> FRAME_TYPE_OFFFSET
    let flags := typeAndFlags &&& FLAGS_MASK
    if t = FRAME_TYPES_SETUP then deserializeSetupFrame buf streamId flags E
    else if t = FRAME_TYPES_PAYLOAD then deserializePayloadFrame buf streamId flags E
    else if t = FRAME_TYPES_ERROR then deserializeErrorFrame buf streamId flags E
    else if t = FRAME_TYPES_KEEPALIVE then deserializeKeepAliveFrame buf streamId flags E
    else if t = FRAME_TYPES_REQUEST_FNF then deserializeRequestFnfFrame buf streamId flags E
    else if t = FRAME_TYPES_REQUEST_RESPONSE then
      deserializeRequestResponseFrame buf streamId flags E
    else if t = FRAME_TYPES_REQUEST_STREAM then
      deserializeRequestStreamFrame buf streamId flags E
    else if t = FRAME_TYPES_REQUEST_CHANNEL then
      deserializeRequestChannelFrame buf streamId flags E
    else if t = FRAME_TYPES_REQUEST_N then deserializeRequestNFrame buf streamId flags E
    else if t = FRAME_TYPES_CANCEL then deserializeCancelFrame buf streamId flags E
    else if t = FRAME_TYPES_LEASE then deserializeLeaseFrame buf streamId flags E
    else .error "Unsupported frame type."

/-- `deserializeFrameWithLength(buffer, encoders)`. -/
def deserializeFrameWithLength (buf : Buffer) (E : Encoders α) : Except String (Frame α) :=
  let frameLength := readUint24 buf 0
  deserializeFrame (slice buf UINT24_SIZE (UINT24_SIZE + frameLength)) E

/-- The while loop of `deserializeFrames`, from a given offset. -/
def deserializeFramesLoop (buf : Buffer) (E : Encoders α) (offset : Nat) :
    Except String (List (Frame α) × Buffer) :=
  if h : offset + UINT24_SIZE < buf.length then
    let frameLength := readUint24 buf offset
    let frameStart := offset + UINT24_SIZE
    let frameEnd := frameStart + frameLength
    if frameEnd > buf.length then
      .ok ([], slice buf offset buf.length)
    else
      match deserializeFrame (slice buf frameStart frameEnd) E with
      | .error e => .error e
      | .ok frame =>
        match deserializeFramesLoop buf E frameEnd with
        | .error e => .error e
        | .ok (frames, leftover) => .ok (frame :: frames, leftover)
  else
    .ok ([], slice buf offset buf.length)
termination_by buf.length - offset
decreasing_by simp only [UINT24_SIZE] at h ⊢; omega

/-- `deserializeFrames(buffer, encoders)`: all complete length-prefixed
frames of the buffer and the leftover bytes. -/
def deserializeFrames (buf : Buffer) (E : Encoders α) :
    Except String (List (Frame α) × Buffer) :=
  deserializeFramesLoop buf E 0

/-! ### RSocketEncoding.js: the two standard encoder implementations

`UTF8Encoder` delegates to bytebuffer.js (`calculateUTF8Bytes`,
`writeUTF8String`); strings are modelled as lists of Unicode code points
and the library functions by standard UTF-8. -/

/-- The UTF-8 encoded size of one code point, as
`ByteBuffer.calculateUTF8Bytes` counts it. -/
def utf8Len (cp : Nat) : Nat :=
  if cp < 0x80 then 1 else if cp < 0x800 then 2 else if cp < 0x10000 then 3 else 4

/-- `ByteBuffer.calculateUTF8Bytes(str)`. -/
def calculateUTF8Bytes (s : Str) : Nat := (s.map utf8Len).sum

/-- The UTF-8 bytes of one code point. -/
def utf8BytesOfCp (cp : Nat) : List Nat :=
  if cp < 0x80 then [cp]
  else if cp < 0x800 then [0xC0 ||| cp >>> 6, 0x80 ||| cp &&& 0x3F]
  else if cp < 0x10000 then
    [0xE0 ||| cp >>> 12, 0x80 ||| cp >>> 6 &&& 0x3F, 0x80 ||| cp &&& 0x3F]
  else
    [0xF0 ||| cp >>> 18, 0x80 ||| cp >>> 12 &&& 0x3F, 0x80 ||| cp >>> 6 &&& 0x3F,
      0x80 ||| cp &&& 0x3F]

/-- The UTF-8 bytes of a string. -/
def utf8Encode (s : Str) : List Nat := s.flatMap utf8BytesOfCp

/-- `ByteBuffer.writeUTF8String(str, offset)`: writes the UTF-8 bytes at
the offset and returns the number of bytes actually written. -/
def writeUTF8String (s : Str) (buf : Buffer) (off : Nat) : Buffer × Nat :=
  (writeBytes buf off (utf8Encode s), (utf8Encode s).length)

/-- `UTF8Encoder.byteLength` of `RSocketEncoding.js`. -/
def UTF8Encoder_byteLength (v : Str) : Nat := calculateUTF8Bytes v

/-- `UTF8Encoder.encode` of `RSocketEncoding.js`: writes the string and
returns `offset + length`. -/
def UTF8Encoder_encode (v : Str) (buf : Buffer) (offset : Nat) : Buffer × Nat :=
  let (buffer, length) := writeUTF8String v buf offset
  (buffer, offset + length)

/-- `BufferEncoder.byteLength` of `RSocketEncoding.js`: `value.limit`. -/
def BufferEncoder_byteLength (v : Buffer) : Nat := v.length

/-- `BufferEncoder.encode` of `RSocketEncoding.js`:
`value.copyTo(buffer, offset, 0, value.limit)`, returning
`offset + value.limit`. -/
def BufferEncoder_encode (v : Buffer) (buf : Buffer) (offset : Nat) : Buffer × Nat :=
  (copyTo v buf offset 0 v.length, offset + v.length)

theorem utf8BytesOfCp_length (cp : Nat) : (utf8BytesOfCp cp).length = utf8Len cp := by
  rw [utf8BytesOfCp, utf8Len]
  split_ifs <;> rfl

theorem utf8Encode_length (s : Str) : (utf8Encode s).length = calculateUTF8Bytes s := by
  induction s with
  | nil => rfl
  | cons cp s ih =>
    rw [utf8Encode, List.flatMap_cons, List.length_append, calculateUTF8Bytes,
      List.map_cons, List.sum_cons, utf8BytesOfCp_length]
    rw [utf8Encode, calculateUTF8Bytes] at ih
    rw [ih]

/-! ### A concrete lawful encoder set used to witness the theorems

Any lawful encoder set may instantiate the round-trip theorems (they
quantify over the set); this one encodes a list of naturals in unary with
a terminator byte per element, which makes lawfulness easy to prove. -/

/-- Unary encoding: each element `n` becomes `n` one-bytes and a zero. -/
def unaryEnc (s : List Nat) : List Nat :=
  s.flatMap (fun n => List.replicate n 1 ++ [0])

/-- Decoder for `unaryEnc`. -/
def unaryDec : List Nat → List Nat
  | [] => []
  | b :: bs =>
    if b == 1 then
      match unaryDec bs with
      | [] => [0]
      | n :: rest => (n + 1) :: rest
    else 0 :: unaryDec bs

/-- The unary encoder. -/
def unaryEncoder : Encoder (List Nat) := ⟨unaryEnc, unaryDec⟩

/-- An encoder set using the unary encoder for every field. -/
def UnaryEncoders : Encoders (List Nat) :=
  ⟨unaryEncoder, unaryEncoder, unaryEncoder, unaryEncoder, unaryEncoder, unaryEncoder⟩

theorem unaryDec_replicate (n : Nat) (tail : List Nat) :
    unaryDec (List.replicate n 1 ++ 0 :: tail) = n :: unaryDec tail := by
  induction n with
  | zero => simp [unaryDec]
  | succ k ih => rw [List.replicate_succ, List.cons_append, unaryDec, ih]; rfl

theorem unaryDec_enc (s : List Nat) : unaryDec (unaryEnc s) = s := by
  induction s with
  | nil => rfl
  | cons n rest ih =>
    rw [unaryEnc, List.flatMap_cons, List.append_assoc, List.singleton_append]
    rw [unaryDec_replicate, ← unaryEnc, ih]

theorem unaryEnc_lt (s : List Nat) : ∀ b ∈ unaryEnc s, b < 256 := by
  induction s with
  | nil => simp [unaryEnc]
  | cons n rest ih =>
    rw [unaryEnc, List.flatMap_cons]
    intro b hb
    rw [List.mem_append] at hb
    rcases hb with hb | hb
    · rw [List.mem_append] at hb
      rcases hb with hb | hb
      · rw [List.eq_of_mem_replicate hb]; norm_num
      · rw [List.mem_singleton] at hb; rw [hb]; norm_num
    · exact ih b hb

theorem unaryEncoder_lawful : unaryEncoder.Lawful :=
  ⟨unaryDec_enc, unaryEnc_lt⟩

theorem UnaryEncoders_lawful : (UnaryEncoders).Lawful :=
  ⟨unaryEncoder_lawful, unaryEncoder_lawful, unaryEncoder_lawful,
    unaryEncoder_lawful, unaryEncoder_lawful, unaryEncoder_lawful⟩

/-! ### Validity

The bounds of the data model (spec 3.1), sharpened to the conditions under
which a frame survives the round trip unchanged: optional byte fields that
are present must encode to at least one byte (a zero-length image parses
back as absent), metadata may be present only when the METADATA flag is
set (the writer silently drops it otherwise), the SETUP string fields and
the ERROR message must be present (the parser always materialises them),
and length-prefixed fields must fit their length slots (including the
signed 16-bit read of the resume-token length). -/

/-- An absent field, or a present one encoding to at least one byte. -/
def optEncNonempty (e : Encoder α) : Option α → Bool
  | none => true
  | some v => !(e.enc v).isEmpty

/-- Payload-section validity for the frames of spec 4.5. -/
def payloadOkB (E : Encoders α) (flags : Nat) (metadata data : Option α) : Bool :=
  (if isMetadata flags then
    match metadata with
    | none => true
    | some m => !(E.metadata.enc m).isEmpty && decide ((E.metadata.enc m).length < 2 ^ 24)
  else metadata.isNone) &&
  optEncNonempty E.data data

/-- Header validity shared by the frames whose stream id must be positive. -/
def streamOkB (streamId : Int) (flags : Nat) : Bool :=
  decide (0 < streamId) && decide (streamId < 2 ^ 31) && decide (flags < 1024)

/-- Round-trip validity of a frame (see the section comment). -/
def validB (E : Encoders α) : Frame α → Bool
  | .setup sid fl major minor ka lt rt mm dm md d =>
    decide (sid = 0) && decide (fl < 1024) &&
    decide (major < 2 ^ 16) && decide (minor < 2 ^ 16) &&
    decide (0 ≤ ka) && decide (ka ≤ MAX_KEEPALIVE) &&
    decide (0 ≤ lt) && decide (lt ≤ MAX_LIFETIME) &&
    (match rt with
      | none => false
      | some rt0 => decide ((E.resumeToken.enc rt0).length < 2 ^ 15)) &&
    (match mm with
      | none => false
      | some mm0 => decide ((E.metadataMimeType.enc mm0).length < 2 ^ 8)) &&
    (match dm with
      | none => false
      | some dm0 => decide ((E.dataMimeType.enc dm0).length < 2 ^ 8)) &&
    payloadOkB E fl md d
  | .error sid fl code msg =>
    streamOkB sid fl && decide (0 ≤ code) && decide (code ≤ MAX_CODE) &&
    (match msg with
      | none => false
      | some m => !(E.message.enc m).isEmpty || m.isEmpty)
  | .keepalive sid fl pos d =>
    decide (sid = 0) && decide (fl < 1024) && decide (pos < 2 ^ 64) &&
      optEncNonempty E.data d
  | .lease sid fl ttl rc md =>
    decide (sid = 0) && decide (fl < 1024) && decide (ttl < 2 ^ 32) &&
      decide (rc < 2 ^ 32) && optEncNonempty E.metadata md
  | .requestFnf sid fl md d => streamOkB sid fl && payloadOkB E fl md d
  | .requestResponse sid fl md d => streamOkB sid fl && payloadOkB E fl md d
  | .requestStream sid fl rn md d =>
    streamOkB sid fl && decide (0 < rn) && decide (rn < 2 ^ 31) && payloadOkB E fl md d
  | .requestChannel sid fl rn md d =>
    streamOkB sid fl && decide (0 < rn) && decide (rn < 2 ^ 31) && payloadOkB E fl md d
  | .requestN sid fl rn =>
    streamOkB sid fl && decide (0 < rn) && decide (rn < 2 ^ 31)
  | .cancel sid fl => streamOkB sid fl
  | .payload sid fl md d => streamOkB sid fl && payloadOkB E fl md d

/-- The size the serializer allocates for a frame (and, as proved below,
the length of the buffer it returns). -/
def serializedLength (E : Encoders α) : Frame α → Nat
  | .setup _ fl _ _ _ _ rt mm dm md d =>
    FRAME_HEADER_SIZE + SETUP_FIXED_SIZE + optionByteLength E.resumeToken rt +
      optionByteLength E.metadataMimeType mm + optionByteLength E.dataMimeType dm +
      getPayloadLength E fl md d
  | .error _ _ _ msg =>
    FRAME_HEADER_SIZE + ERROR_FIXED_SIZE + optionByteLength E.message msg
  | .keepalive _ _ _ d =>
    FRAME_HEADER_SIZE + KEEPALIVE_FIXED_SIZE + optionByteLength E.data d
  | .lease _ _ _ _ md =>
    FRAME_HEADER_SIZE + LEASE_FIXED_SIZE + optionByteLength E.metadata md
  | .requestFnf _ fl md d => FRAME_HEADER_SIZE + getPayloadLength E fl md d
  | .requestResponse _ fl md d => FRAME_HEADER_SIZE + getPayloadLength E fl md d
  | .requestStream _ fl _ md d =>
    FRAME_HEADER_SIZE + REQUEST_MANY_HEADER + getPayloadLength E fl md d
  | .requestChannel _ fl _ md d =>
    FRAME_HEADER_SIZE + REQUEST_MANY_HEADER + getPayloadLength E fl md d
  | .requestN _ _ _ => FRAME_HEADER_SIZE + REQUEST_N_HEADER
  | .cancel _ _ => FRAME_HEADER_SIZE
  | .payload _ fl md d => FRAME_HEADER_SIZE + getPayloadLength E fl md d

/-- The byte image of the payload section (spec 4.5) as `writePayload`
produces it. -/
def payloadBytes (E : Encoders α) (fl : Nat) (md d : Option α) : List Nat :=
  (if isMetadata fl then
    beBytes 3 (optionByteLength E.metadata md) ++ optBytes E.metadata md
  else []) ++ optBytes E.data d

/-! ### Serialization normal forms -/

theorem writeBytes_step (pre : Buffer) (m : Nat) (bs : List Nat) (off : Nat)
    (hoff : off = pre.length) (h : bs.length ≤ m) (hb : ∀ b ∈ bs, b < 256) :
    writeBytes (pre ++ List.replicate m 0) off bs =
      (pre ++ bs) ++ List.replicate (m - bs.length) 0 := by
  rw [writeBytes_fill pre _ bs off hoff (by rw [List.length_replicate]; omega) hb,
    List.drop_replicate, List.append_assoc]

theorem writeBytes_congr (buf : Buffer) (off : Nat) {bs bs' : List Nat}
    (h : bs.map (· % 256) = bs'.map (· % 256)) :
    writeBytes buf off bs = writeBytes buf off bs' := by
  induction bs generalizing bs' buf off with
  | nil => cases bs' <;> simp_all [writeBytes]
  | cons b t ih =>
    cases bs' with
    | nil => simp at h
    | cons b' t' =>
      simp only [List.map_cons, List.cons.injEq] at h
      rw [writeBytes, writeBytes, h.1, ih _ _ h.2]

theorem writeUint24_eq (buf : Buffer) (v off : Nat) :
    writeUint24 buf v off = writeBytes buf off (beBytes 3 v) := by
  have h1 : writeUint24 buf v off =
      writeBytes buf off [v >>> 16, v >>> 8 &&& 0xff, v &&& 0xff] := rfl
  rw [h1]
  apply writeBytes_congr
  have hmm : ∀ x : Nat, x % 256 % 256 = x % 256 := fun x => Nat.mod_mod_of_dvd x dvd_rfl
  simp only [List.map_cons, List.map_nil, beBytes, Nat.shiftRight_eq_div_pow,
    show (0xff : Nat) = 2 ^ 8 - 1 from by norm_num, Nat.and_pow_two_sub_one_eq_mod, hmm]
  norm_num [Nat.div_div_eq_div_mul]

/-- The bytes of a buffer are all below 256. -/
def ByteBounded (buf : Buffer) : Prop := ∀ b ∈ buf, b < 256

theorem byteBounded_getD {buf : Buffer} (h : ByteBounded buf) (i : Nat) :
    buf.getD i 0 < 256 := by
  rcases Nat.lt_or_ge i buf.length with hi | hi
  · rw [List.getD_eq_getElem _ _ hi]
    exact h _ (List.getElem_mem hi)
  · rw [List.getD_eq_default _ _ hi]; norm_num

theorem readBE_three (buf : Buffer) (off : Nat) :
    readBE buf off 3 =
      (buf.getD off 0 * 2 ^ 8 + buf.getD (off + 1) 0) * 2 ^ 8 + buf.getD (off + 2) 0 := by
  have h : readBE buf off 3 =
      buf.getD off 0 * 2 ^ (8 * 2) + (buf.getD (off + 1) 0 * 2 ^ (8 * 1) +
        (buf.getD (off + 2) 0 * 2 ^ (8 * 0) + 0)) := rfl
  rw [h]; ring

theorem readUint24_eq_readBE (buf : Buffer) (off : Nat) (h : ByteBounded buf) :
    readUint24 buf off = readBE buf off 3 := by
  have g1 := byteBounded_getD h (off + 1)
  have g2 := byteBounded_getD h (off + 2)
  rw [readBE_three]
  simp only [readUint24, readUint8]
  have e1 : buf.getD off 0 <<< 16 ||| buf.getD (off + 1) 0 <<< 8
      = (buf.getD off 0 * 2 ^ 8 + buf.getD (off + 1) 0) * 2 ^ 8 := by
    rw [Nat.shiftLeft_eq _ 8, lor_shiftLeft_add _ _ 16 (by norm_num at g1 ⊢; omega)]
    ring
  rw [e1, lor_mul_two_pow_add _ _ 8 (by norm_num at g2 ⊢; omega)]

theorem headerWord_spec (t fl : Nat) (ht : t < 64) (hfl : fl < 1024) :
    t <<< FRAME_TYPE_OFFFSET ||| fl &&& FLAGS_MASK = t * 1024 + fl ∧
    t * 1024 + fl < 2 ^ 16 ∧
    (t * 1024 + fl) >>> FRAME_TYPE_OFFFSET = t ∧
    (t * 1024 + fl) &&& FLAGS_MASK = fl := by
  have h10 : (FLAGS_MASK : Nat) = 2 ^ 10 - 1 := by rw [FLAGS_MASK]; norm_num
  have hmask : fl &&& FLAGS_MASK = fl := by
    rw [h10]
    exact Nat.and_pow_two_sub_one_of_lt_two_pow (by norm_num; omega)
  refine ⟨?_, by norm_num; omega, ?_, ?_⟩
  · rw [FRAME_TYPE_OFFFSET, hmask, lor_shiftLeft_add _ _ 10 (by norm_num; omega)]
    norm_num
  · rw [FRAME_TYPE_OFFFSET, Nat.shiftRight_eq_div_pow]
    norm_num
    rw [Nat.mul_comm t 1024, Nat.mul_add_div (by norm_num), Nat.div_eq_of_lt hfl]
    omega
  · rw [h10, Nat.and_pow_two_sub_one_eq_mod]
    norm_num [Nat.mul_add_mod', Nat.mod_eq_of_lt hfl]

theorem writeBytes_step0 (m : Nat) (bs : List Nat) (h : bs.length ≤ m)
    (hb : ∀ b ∈ bs, b < 256) :
    writeBytes (List.replicate m 0) 0 bs = bs ++ List.replicate (m - bs.length) 0 := by
  have := writeBytes_step [] m bs 0 rfl h hb
  simpa using this

theorem writeHeader_allocate (sid : Int) (t fl N : Nat) (h : 6 ≤ N) :
    writeHeader sid t fl (allocate N) =
      ((beBytes 4 (wrap32 sid) ++ beBytes 2 (t <<< FRAME_TYPE_OFFFSET ||| fl &&& FLAGS_MASK))
        ++ List.replicate (N - 6) 0, 6) := by
  rw [writeHeader, writeInt32, allocate]
  rw [writeBytes_step0 N _ (by rw [beBytes_length]; omega) (beBytes_lt _ _), beBytes_length]
  rw [writeUint16, writeBytes_step (beBytes 4 (wrap32 sid)) (N - 4) _ 4
    (by rw [beBytes_length]) (by rw [beBytes_length]; omega) (beBytes_lt _ _),
    beBytes_length, FRAME_HEADER_SIZE]
  have e : N - 4 - 2 = N - 6 := by omega
  rw [e]

theorem writeHeader_length (sid : Int) (t fl : Nat) (buf : Buffer) :
    (writeHeader sid t fl buf).1.length = buf.length := by
  rw [writeHeader, writeUint16, writeInt32, writeBytes_length, writeBytes_length]

theorem writeUint24_length (buf : Buffer) (v off : Nat) :
    (writeUint24 buf v off).length = buf.length := by
  rw [writeUint24_eq, writeBytes_length]

theorem writePayload_length (E : Encoders α) (fl : Nat) (md d : Option α)
    (buf : Buffer) (off : Nat) :
    (writePayload E fl md d buf off).length = buf.length := by
  rcases hm : isMetadata fl with _ | _ <;>
    cases md <;> cases d <;>
      simp [writePayload, Encoder.encode, writeBytes_length, writeUint24_length, hm]

theorem writePayload_eq (E : Encoders α) (fl : Nat) (md d : Option α)
    (pre : Buffer) (off : Nat) (hoff : off = pre.length)
    (hmb : ∀ m, md = some m → ∀ b ∈ E.metadata.enc m, b < 256)
    (hdb : ∀ dd, d = some dd → ∀ b ∈ E.data.enc dd, b < 256) :
    writePayload E fl md d (pre ++ List.replicate (getPayloadLength E fl md d) 0) off
      = pre ++ payloadBytes E fl md d := by
  rcases hm : isMetadata fl with _ | _
  · cases d with
    | none =>
      simp [writePayload, getPayloadLength, payloadBytes, hm, optBytes]
    | some dd =>
      simp only [writePayload, getPayloadLength, payloadBytes, hm, Bool.false_eq_true,
        if_false, List.nil_append, Encoder.encode, Encoder.byteLength]
      rw [writeBytes_step pre _ _ off hoff (by omega) (hdb dd rfl)]
      simp [optBytes]
  · cases md with
    | none =>
      cases d with
      | none =>
        simp only [writePayload, getPayloadLength, payloadBytes, hm, if_true, UINT24_SIZE]
        rw [writeUint24_eq]
        rw [writeBytes_step pre _ _ off hoff (by rw [beBytes_length]) (beBytes_lt _ _)]
        simp [beBytes_length, optBytes, optionByteLength]
      | some dd =>
        simp only [writePayload, getPayloadLength, payloadBytes, hm, if_true, UINT24_SIZE,
          Encoder.encode, Encoder.byteLength]
        rw [writeUint24_eq]
        rw [writeBytes_step pre _ _ off hoff (by rw [beBytes_length]; omega)
          (beBytes_lt _ _), beBytes_length]
        rw [writeBytes_step (pre ++ beBytes 3 0) _ _ (off + 3)
          (by simp [beBytes_length, hoff]) (by omega) (hdb dd rfl)]
        simp [List.append_assoc, optBytes, optionByteLength, Encoder.byteLength]
    | some m =>
      cases d with
      | none =>
        simp only [writePayload, getPayloadLength, payloadBytes, hm, if_true, UINT24_SIZE,
          Encoder.encode, Encoder.byteLength]
        rw [writeUint24_eq]
        rw [writeBytes_step pre _ _ off hoff (by rw [beBytes_length]; omega)
          (beBytes_lt _ _), beBytes_length]
        rw [writeBytes_step (pre ++ beBytes 3 (E.metadata.enc m).length) _ _ (off + 3)
          (by simp [beBytes_length, hoff]) (by omega) (hmb m rfl)]
        simp [List.append_assoc, optBytes, optionByteLength, Encoder.byteLength]
      | some dd =>
        simp only [writePayload, getPayloadLength, payloadBytes, hm, if_true, UINT24_SIZE,
          Encoder.encode, Encoder.byteLength]
        rw [writeUint24_eq]
        rw [writeBytes_step pre _ _ off hoff (by rw [beBytes_length]; omega)
          (beBytes_lt _ _), beBytes_length]
        rw [writeBytes_step (pre ++ beBytes 3 (E.metadata.enc m).length) _ _ (off + 3)
          (by simp [beBytes_length, hoff]) (by omega) (hmb m rfl)]
        rw [writeBytes_step ((pre ++ beBytes 3 (E.metadata.enc m).length) ++ E.metadata.enc m)
          _ _ (off + 3 + (E.metadata.enc m).length)
          (by simp [beBytes_length, hoff]; omega) (by omega) (hdb dd rfl)]
        have e0 : (E.data.enc dd).length + 3 + (E.metadata.enc m).length - 3 -
            (E.metadata.enc m).length - (E.data.enc dd).length = 0 := by omega
        rw [e0]
        simp [List.append_assoc, optBytes, optionByteLength, Encoder.byteLength]

theorem optionByteLength_eq (e : Encoder α) (o : Option α) :
    optionByteLength e o = (optBytes e o).length := by
  cases o <;> rfl

theorem optionEncode_eq (e : Encoder α) (o : Option α) (buf : Buffer) (off : Nat) :
    optionEncode e o buf off =
      (writeBytes buf off (optBytes e o), off + (optBytes e o).length) := by
  cases o <;> rfl

theorem optBytes_lt {e : Encoder α} (he : e.Lawful) (o : Option α) :
    ∀ b ∈ optBytes e o, b < 256 := by
  cases o with
  | none => simp [optBytes]
  | some v => exact he.2 v

theorem writeUint8_eq (buf : Buffer) (v off : Nat) :
    writeUint8 buf v off = writeBytes buf off (beBytes 1 v) := by
  apply writeBytes_congr
  have hmm : ∀ x : Nat, x % 256 % 256 = x % 256 := fun x => Nat.mod_mod_of_dvd x dvd_rfl
  simp [beBytes, hmm]

/-- The header bytes every serializer writes first. -/
def headerBytes (sid : Int) (t fl : Nat) : List Nat :=
  beBytes 4 (wrap32 sid) ++ beBytes 2 (t <<< FRAME_TYPE_OFFFSET ||| fl &&& FLAGS_MASK)

theorem headerBytes_length (sid : Int) (t fl : Nat) :
    (headerBytes sid t fl).length = 6 := by
  simp [headerBytes, beBytes_length]

theorem serializeCancel_eq (sid : Int) (fl : Nat) :
    serializeCancelFrame sid fl = headerBytes sid FRAME_TYPES_CANCEL fl := by
  simp only [serializeCancelFrame, FRAME_HEADER_SIZE]
  rw [writeHeader_allocate _ _ _ _ (by norm_num : (6 : Nat) ≤ 6)]
  simp [headerBytes]

theorem serializeRequestN_eq (sid : Int) (fl : Nat) (rn : Int) :
    serializeRequestNFrame sid fl rn =
      headerBytes sid FRAME_TYPES_REQUEST_N fl ++ beBytes 4 (wrap32 rn) := by
  simp only [serializeRequestNFrame, FRAME_HEADER_SIZE, REQUEST_N_HEADER]
  rw [writeHeader_allocate _ _ _ _ (by norm_num : (6 : Nat) ≤ 6 + 4)]
  rw [writeUint32, writeBytes_step (beBytes 4 (wrap32 sid) ++ beBytes 2 _) _ _ 6
    (by simp [beBytes_length]) (by norm_num [beBytes_length]) (beBytes_lt _ _)]
  rw [show (6 : Nat) + 4 - 6 - (beBytes 4 (wrap32 rn)).length = 0 from by
    norm_num [beBytes_length]]
  simp [headerBytes]

theorem serializeRequest_eq (E : Encoders α) (t : Nat) (sid : Int) (fl : Nat)
    (md d : Option α)
    (hmb : ∀ m, md = some m → ∀ b ∈ E.metadata.enc m, b < 256)
    (hdb : ∀ dd, d = some dd → ∀ b ∈ E.data.enc dd, b < 256) :
    serializeRequestFrame E t sid fl md d =
      headerBytes sid t fl ++ payloadBytes E fl md d := by
  simp only [serializeRequestFrame, FRAME_HEADER_SIZE]
  rw [writeHeader_allocate _ _ _ _ (by omega : (6 : Nat) ≤ 6 + getPayloadLength E fl md d)]
  rw [show (6 : Nat) + getPayloadLength E fl md d - 6 = getPayloadLength E fl md d from by
    omega]
  rw [writePayload_eq E fl md d _ 6 (by simp [beBytes_length]) hmb hdb]
  rw [headerBytes]

theorem serializePayload_eq (E : Encoders α) (sid : Int) (fl : Nat)
    (md d : Option α)
    (hmb : ∀ m, md = some m → ∀ b ∈ E.metadata.enc m, b < 256)
    (hdb : ∀ dd, d = some dd → ∀ b ∈ E.data.enc dd, b < 256) :
    serializePayloadFrame E sid fl md d =
      headerBytes sid FRAME_TYPES_PAYLOAD fl ++ payloadBytes E fl md d := by
  simp only [serializePayloadFrame, FRAME_HEADER_SIZE]
  rw [writeHeader_allocate _ _ _ _ (by omega : (6 : Nat) ≤ 6 + getPayloadLength E fl md d)]
  rw [show (6 : Nat) + getPayloadLength E fl md d - 6 = getPayloadLength E fl md d from by
    omega]
  rw [writePayload_eq E fl md d _ 6 (by simp [beBytes_length]) hmb hdb]
  rw [headerBytes]

theorem serializeRequestMany_eq (E : Encoders α) (t : Nat) (sid : Int) (fl : Nat)
    (rn : Int) (md d : Option α)
    (hmb : ∀ m, md = some m → ∀ b ∈ E.metadata.enc m, b < 256)
    (hdb : ∀ dd, d = some dd → ∀ b ∈ E.data.enc dd, b < 256) :
    serializeRequestManyFrame E t sid fl rn md d =
      headerBytes sid t fl ++ beBytes 4 (wrap32 rn) ++ payloadBytes E fl md d := by
  simp only [serializeRequestManyFrame, FRAME_HEADER_SIZE, REQUEST_MANY_HEADER]
  rw [writeHeader_allocate _ _ _ _
    (by omega : (6 : Nat) ≤ 6 + 4 + getPayloadLength E fl md d)]
  rw [writeUint32, writeBytes_step (beBytes 4 (wrap32 sid) ++ beBytes 2 _) _ _ 6
    (by simp [beBytes_length]) (by rw [beBytes_length]; omega) (beBytes_lt _ _)]
  rw [show (6 : Nat) + 4 + getPayloadLength E fl md d - 6 - (beBytes 4 (wrap32 rn)).length
      = getPayloadLength E fl md d from by rw [beBytes_length]; omega]
  rw [writePayload_eq E fl md d _ 10 (by simp [beBytes_length]) hmb hdb]
  rw [headerBytes]

theorem serializeError_eq (E : Encoders α) (sid : Int) (fl : Nat) (code : Int)
    (msg : Option Str) (hmsg : ∀ b ∈ optBytes E.message msg, b < 256) :
    serializeErrorFrame E sid fl code msg =
      headerBytes sid FRAME_TYPES_ERROR fl ++ beBytes 4 (wrap32 code) ++
        optBytes E.message msg := by
  simp only [serializeErrorFrame, FRAME_HEADER_SIZE, ERROR_FIXED_SIZE, optionByteLength_eq]
  rw [writeHeader_allocate _ _ _ _
    (by omega : (6 : Nat) ≤ 6 + 4 + (optBytes E.message msg).length)]
  rw [writeUint32, writeBytes_step (beBytes 4 (wrap32 sid) ++ beBytes 2 _) _ _ 6
    (by simp [beBytes_length]) (by rw [beBytes_length]; omega) (beBytes_lt _ _)]
  rw [optionEncode_eq]
  rw [writeBytes_step ((beBytes 4 (wrap32 sid) ++ beBytes 2 _) ++ beBytes 4 (wrap32 code))
    _ _ 10 (by simp [beBytes_length]) (by rw [beBytes_length]; omega) hmsg]
  rw [show (6 : Nat) + 4 + (optBytes E.message msg).length - 6 - (beBytes 4 (wrap32 code)).length
      - (optBytes E.message msg).length = 0 from by rw [beBytes_length]; omega]
  simp [headerBytes]

theorem serializeKeepAlive_eq (E : Encoders α) (sid : Int) (fl : Nat) (pos : Nat)
    (d : Option α) (hd : ∀ b ∈ optBytes E.data d, b < 256) :
    serializeKeepAliveFrame E sid fl pos d =
      headerBytes sid FRAME_TYPES_KEEPALIVE fl ++ beBytes 8 pos ++ optBytes E.data d := by
  simp only [serializeKeepAliveFrame, FRAME_HEADER_SIZE, KEEPALIVE_FIXED_SIZE, optionByteLength_eq]
  rw [writeHeader_allocate _ _ _ _
    (by omega : (6 : Nat) ≤ 6 + 8 + (optBytes E.data d).length)]
  rw [writeUint64, writeBytes_step (beBytes 4 (wrap32 sid) ++ beBytes 2 _) _ _ 6
    (by simp [beBytes_length]) (by rw [beBytes_length]; omega) (beBytes_lt _ _)]
  rw [optionEncode_eq]
  rw [writeBytes_step ((beBytes 4 (wrap32 sid) ++ beBytes 2 _) ++ beBytes 8 pos)
    _ _ 14 (by simp [beBytes_length]) (by rw [beBytes_length]; omega) hd]
  rw [show (6 : Nat) + 8 + (optBytes E.data d).length - 6 - (beBytes 8 pos).length
      - (optBytes E.data d).length = 0 from by rw [beBytes_length]; omega]
  simp [headerBytes]

theorem serializeLease_eq (E : Encoders α) (sid : Int) (fl : Nat) (ttl rc : Nat)
    (md : Option α) (hmd : ∀ b ∈ optBytes E.metadata md, b < 256) :
    serializeLeaseFrame E sid fl ttl rc md =
      headerBytes sid FRAME_TYPES_LEASE fl ++ beBytes 4 ttl ++ beBytes 4 rc ++
        optBytes E.metadata md := by
  simp only [serializeLeaseFrame, FRAME_HEADER_SIZE, LEASE_FIXED_SIZE, optionByteLength_eq]
  rw [writeHeader_allocate _ _ _ _
    (by omega : (6 : Nat) ≤ 6 + 8 + (optBytes E.metadata md).length)]
  simp only [writeUint32]
  rw [writeBytes_step (beBytes 4 (wrap32 sid) ++ beBytes 2 _) _ _ 6
    (by simp [beBytes_length]) (by simp [beBytes_length]; omega) (beBytes_lt _ _)]
  rw [writeBytes_step ((beBytes 4 (wrap32 sid) ++ beBytes 2 _) ++ beBytes 4 ttl)
    _ _ 10 (by simp [beBytes_length]) (by simp [beBytes_length]; omega) (beBytes_lt _ _)]
  rw [optionEncode_eq]
  rw [writeBytes_step (((beBytes 4 (wrap32 sid) ++ beBytes 2 _) ++ beBytes 4 ttl) ++
    beBytes 4 rc) _ _ 14 (by simp [beBytes_length]) (by simp [beBytes_length]; omega) hmd]
  rw [show (6 : Nat) + 8 + (optBytes E.metadata md).length - 6 - (beBytes 4 ttl).length
      - (beBytes 4 rc).length - (optBytes E.metadata md).length = 0 from by
    simp [beBytes_length]; omega]
  simp [headerBytes]

theorem serializeSetup_eq (E : Encoders α) (sid : Int) (fl : Nat)
    (major minor : Nat) (ka lt : Int) (rt : Option α) (mm dm : Option Str)
    (md d : Option α)
    (hrt : ∀ b ∈ optBytes E.resumeToken rt, b < 256)
    (hmm : ∀ b ∈ optBytes E.metadataMimeType mm, b < 256)
    (hdm : ∀ b ∈ optBytes E.dataMimeType dm, b < 256)
    (hmb : ∀ m, md = some m → ∀ b ∈ E.metadata.enc m, b < 256)
    (hdb : ∀ dd, d = some dd → ∀ b ∈ E.data.enc dd, b < 256) :
    serializeSetupFrame E sid fl major minor ka lt rt mm dm md d =
      headerBytes sid FRAME_TYPES_SETUP fl ++ beBytes 2 major ++ beBytes 2 minor ++
      beBytes 4 (wrap32 ka) ++ beBytes 4 (wrap32 lt) ++
      beBytes 2 (optBytes E.resumeToken rt).length ++ optBytes E.resumeToken rt ++
      beBytes 1 (optBytes E.metadataMimeType mm).length ++ optBytes E.metadataMimeType mm ++
      beBytes 1 (optBytes E.dataMimeType dm).length ++ optBytes E.dataMimeType dm ++
      payloadBytes E fl md d := by
  simp only [serializeSetupFrame, FRAME_HEADER_SIZE, SETUP_FIXED_SIZE, optionByteLength_eq,
    optionEncode_eq, writeUint16, writeUint32, writeUint8_eq]
  rw [writeHeader_allocate _ _ _ _ (by omega)]
  rw [writeBytes_step (beBytes 4 (wrap32 sid) ++ beBytes 2 _) _ _ 6
    (by simp only [List.length_append, beBytes_length]; try omega)
    (by simp only [List.length_append, beBytes_length]; try omega) (beBytes_lt _ _)]
  rw [writeBytes_step ((beBytes 4 (wrap32 sid) ++ beBytes 2 _) ++ beBytes 2 major) _ _ 8
    (by simp only [List.length_append, beBytes_length]; try omega)
    (by simp only [List.length_append, beBytes_length]; try omega) (beBytes_lt _ _)]
  rw [writeBytes_step (((beBytes 4 (wrap32 sid) ++ beBytes 2 _) ++ beBytes 2 major) ++
    beBytes 2 minor) _ _ 10
    (by simp only [List.length_append, beBytes_length]; try omega)
    (by simp only [List.length_append, beBytes_length]; try omega) (beBytes_lt _ _)]
  rw [writeBytes_step ((((beBytes 4 (wrap32 sid) ++ beBytes 2 _) ++ beBytes 2 major) ++
    beBytes 2 minor) ++ beBytes 4 (wrap32 ka)) _ _ 14
    (by simp only [List.length_append, beBytes_length]; try omega)
    (by simp only [List.length_append, beBytes_length]; try omega) (beBytes_lt _ _)]
  rw [writeBytes_step (((((beBytes 4 (wrap32 sid) ++ beBytes 2 _) ++ beBytes 2 major) ++
    beBytes 2 minor) ++ beBytes 4 (wrap32 ka)) ++ beBytes 4 (wrap32 lt)) _ _ 18
    (by simp only [List.length_append, beBytes_length]; try omega)
    (by simp only [List.length_append, beBytes_length]; try omega) (beBytes_lt _ _)]
  rw [writeBytes_step ((((((beBytes 4 (wrap32 sid) ++ beBytes 2 _) ++ beBytes 2 major) ++
    beBytes 2 minor) ++ beBytes 4 (wrap32 ka)) ++ beBytes 4 (wrap32 lt)) ++
    beBytes 2 (optBytes E.resumeToken rt).length) _ _ 20
    (by simp only [List.length_append, beBytes_length]; try omega)
    (by simp only [List.length_append, beBytes_length]; try omega) hrt]
  rw [writeBytes_step (((((((beBytes 4 (wrap32 sid) ++ beBytes 2 _) ++ beBytes 2 major) ++
    beBytes 2 minor) ++ beBytes 4 (wrap32 ka)) ++ beBytes 4 (wrap32 lt)) ++
    beBytes 2 (optBytes E.resumeToken rt).length) ++ optBytes E.resumeToken rt) _ _
    (20 + (optBytes E.resumeToken rt).length)
    (by simp only [List.length_append, beBytes_length]; try omega)
    (by simp only [List.length_append, beBytes_length]; try omega) (beBytes_lt _ _)]
  rw [writeBytes_step ((((((((beBytes 4 (wrap32 sid) ++ beBytes 2 _) ++ beBytes 2 major) ++
    beBytes 2 minor) ++ beBytes 4 (wrap32 ka)) ++ beBytes 4 (wrap32 lt)) ++
    beBytes 2 (optBytes E.resumeToken rt).length) ++ optBytes E.resumeToken rt) ++
    beBytes 1 (optBytes E.metadataMimeType mm).length) _ _
    (20 + (optBytes E.resumeToken rt).length + 1)
    (by simp only [List.length_append, beBytes_length]; try omega)
    (by simp only [List.length_append, beBytes_length]; try omega) hmm]
  rw [writeBytes_step (((((((((beBytes 4 (wrap32 sid) ++ beBytes 2 _) ++ beBytes 2 major) ++
    beBytes 2 minor) ++ beBytes 4 (wrap32 ka)) ++ beBytes 4 (wrap32 lt)) ++
    beBytes 2 (optBytes E.resumeToken rt).length) ++ optBytes E.resumeToken rt) ++
    beBytes 1 (optBytes E.metadataMimeType mm).length) ++ optBytes E.metadataMimeType mm) _ _
    (20 + (optBytes E.resumeToken rt).length + 1 + (optBytes E.metadataMimeType mm).length)
    (by simp only [List.length_append, beBytes_length]; try omega)
    (by simp only [List.length_append, beBytes_length]; try omega) (beBytes_lt _ _)]
  rw [writeBytes_step ((((((((((beBytes 4 (wrap32 sid) ++ beBytes 2 _) ++ beBytes 2 major) ++
    beBytes 2 minor) ++ beBytes 4 (wrap32 ka)) ++ beBytes 4 (wrap32 lt)) ++
    beBytes 2 (optBytes E.resumeToken rt).length) ++ optBytes E.resumeToken rt) ++
    beBytes 1 (optBytes E.metadataMimeType mm).length) ++ optBytes E.metadataMimeType mm) ++
    beBytes 1 (optBytes E.dataMimeType dm).length) _ _
    (20 + (optBytes E.resumeToken rt).length + 1 + (optBytes E.metadataMimeType mm).length + 1)
    (by simp only [List.length_append, beBytes_length]; try omega)
    (by simp only [List.length_append, beBytes_length]; try omega) hdm]
  simp only [beBytes_length]
  rw [show (6 : Nat) + 16 + (optBytes E.resumeToken rt).length +
      (optBytes E.metadataMimeType mm).length + (optBytes E.dataMimeType dm).length +
      getPayloadLength E fl md d - 6 - 2 - 2 - 4 - 4 - 2 -
      (optBytes E.resumeToken rt).length - 1 - (optBytes E.metadataMimeType mm).length -
      1 - (optBytes E.dataMimeType dm).length = getPayloadLength E fl md d from by omega]
  rw [writePayload_eq E fl md d _
    (20 + (optBytes E.resumeToken rt).length + 1 + (optBytes E.metadataMimeType mm).length +
      1 + (optBytes E.dataMimeType dm).length)
    (by simp only [List.length_append, beBytes_length]; try omega) hmb hdb]
  rw [headerBytes]

/-! ### Reading back the serialized images -/

theorem readBE_at_of_lt (pre : Buffer) (n v : Nat) (rest : Buffer) (off : Nat)
    (hoff : off = pre.length) (hv : v < 2 ^ (8 * n)) :
    readBE (pre ++ beBytes n v ++ rest) off n = v := by
  rw [readBE_at pre n v rest off hoff, Nat.mod_eq_of_lt hv]

theorem readUint16_at (pre : Buffer) (v : Nat) (rest : Buffer) (off : Nat)
    (hoff : off = pre.length) (hv : v < 2 ^ 16) :
    readUint16 (pre ++ beBytes 2 v ++ rest) off = v := by
  rw [readUint16]
  exact readBE_at_of_lt pre 2 v rest off hoff (by norm_num; omega)

theorem readUint32_at (pre : Buffer) (v : Nat) (rest : Buffer) (off : Nat)
    (hoff : off = pre.length) (hv : v < 2 ^ 32) :
    readUint32 (pre ++ beBytes 4 v ++ rest) off = v := by
  rw [readUint32]
  exact readBE_at_of_lt pre 4 v rest off hoff (by norm_num; omega)

theorem readUint64_at (pre : Buffer) (v : Nat) (rest : Buffer) (off : Nat)
    (hoff : off = pre.length) (hv : v < 2 ^ 64) :
    readUint64 (pre ++ beBytes 8 v ++ rest) off = v := by
  rw [readUint64]
  exact readBE_at_of_lt pre 8 v rest off hoff (by norm_num; omega)

theorem wrap32_lt (v : Int) : wrap32 v < 2 ^ 32 := by
  rw [wrap32]
  norm_num
  omega

theorem wrap32_spec (v : Int) (h0 : 0 ≤ v) (h1 : v < 2 ^ 31) :
    wrap32 v = v.toNat ∧ v.toNat < 2 ^ 31 := by
  rw [wrap32]
  norm_num at h1 ⊢
  omega

theorem readInt32_at_nonneg (pre : Buffer) (v : Int) (rest : Buffer) (off : Nat)
    (hoff : off = pre.length) (h0 : 0 ≤ v) (h1 : v < 2 ^ 31) :
    readInt32 (pre ++ beBytes 4 (wrap32 v) ++ rest) off = v := by
  obtain ⟨hw, hlt⟩ := wrap32_spec v h0 h1
  simp only [readInt32]
  rw [readBE_at_of_lt pre 4 (wrap32 v) rest off hoff
    (by have hl := wrap32_lt v; norm_num at hl ⊢; omega), hw, if_pos hlt]
  exact Int.toNat_of_nonneg h0

theorem readInt16_at_nat (pre : Buffer) (L : Nat) (rest : Buffer) (off : Nat)
    (hoff : off = pre.length) (hL : L < 2 ^ 15) :
    readInt16 (pre ++ beBytes 2 L ++ rest) off = (L : Int) := by
  simp only [readInt16]
  rw [readBE_at_of_lt pre 2 L rest off hoff (by norm_num at hL ⊢; omega), if_pos hL]

theorem readUint8_at (pre : Buffer) (v : Nat) (rest : Buffer) (off : Nat)
    (hoff : off = pre.length) (hv : v < 256) :
    readUint8 (pre ++ beBytes 1 v ++ rest) off = v := by
  rw [readUint8, List.append_assoc]
  have h : beBytes 1 v ++ rest = v % 256 :: rest := by
    simp [beBytes]
  rw [h, getD_at pre _ rest off hoff, Nat.mod_eq_of_lt hv]

theorem byteBounded_append {a b : Buffer} (ha : ByteBounded a) (hb : ByteBounded b) :
    ByteBounded (a ++ b) := by
  intro x hx
  rw [List.mem_append] at hx
  rcases hx with hx | hx
  · exact ha x hx
  · exact hb x hx

theorem byteBounded_beBytes (n v : Nat) : ByteBounded (beBytes n v) := beBytes_lt n v

theorem byteBounded_headerBytes (sid : Int) (t fl : Nat) :
    ByteBounded (headerBytes sid t fl) :=
  byteBounded_append (byteBounded_beBytes _ _) (byteBounded_beBytes _ _)

theorem readUint24_at (pre : Buffer) (v : Nat) (rest : Buffer) (off : Nat)
    (hoff : off = pre.length) (hv : v < 2 ^ 24)
    (hb : ByteBounded (pre ++ beBytes 3 v ++ rest)) :
    readUint24 (pre ++ beBytes 3 v ++ rest) off = v := by
  rw [readUint24_eq_readBE _ _ hb]
  exact readBE_at_of_lt pre 3 v rest off hoff (by norm_num at hv ⊢; omega)

theorem header_readInt32 (sid : Int) (t fl : Nat) (rest : Buffer)
    (h0 : 0 ≤ sid) (h1 : sid < 2 ^ 31) :
    readInt32 (headerBytes sid t fl ++ rest) 0 = sid := by
  rw [headerBytes, List.append_assoc]
  exact readInt32_at_nonneg [] sid _ 0 rfl h0 h1

theorem header_readUint16 (sid : Int) (t fl : Nat) (rest : Buffer)
    (ht : t < 64) (hfl : fl < 1024) :
    readUint16 (headerBytes sid t fl ++ rest) 4 = t * 1024 + fl := by
  obtain ⟨hw, hlt, _, _⟩ := headerWord_spec t fl ht hfl
  rw [headerBytes, List.append_assoc, hw]
  exact readUint16_at (beBytes 4 (wrap32 sid)) _ _ 4 (by rw [beBytes_length]) hlt

theorem readUint16_buf (buf pre : Buffer) (v : Nat) (rest : Buffer) (off : Nat)
    (hbuf : buf = pre ++ beBytes 2 v ++ rest) (hoff : off = pre.length)
    (hv : v < 2 ^ 16) : readUint16 buf off = v := by
  rw [hbuf]; exact readUint16_at pre v rest off hoff hv

theorem readUint32_buf (buf pre : Buffer) (v : Nat) (rest : Buffer) (off : Nat)
    (hbuf : buf = pre ++ beBytes 4 v ++ rest) (hoff : off = pre.length)
    (hv : v < 2 ^ 32) : readUint32 buf off = v := by
  rw [hbuf]; exact readUint32_at pre v rest off hoff hv

theorem readUint64_buf (buf pre : Buffer) (v : Nat) (rest : Buffer) (off : Nat)
    (hbuf : buf = pre ++ beBytes 8 v ++ rest) (hoff : off = pre.length)
    (hv : v < 2 ^ 64) : readUint64 buf off = v := by
  rw [hbuf]; exact readUint64_at pre v rest off hoff hv

theorem readInt32_buf (buf pre : Buffer) (v : Int) (rest : Buffer) (off : Nat)
    (hbuf : buf = pre ++ beBytes 4 (wrap32 v) ++ rest) (hoff : off = pre.length)
    (h0 : 0 ≤ v) (h1 : v < 2 ^ 31) : readInt32 buf off = v := by
  rw [hbuf]; exact readInt32_at_nonneg pre v rest off hoff h0 h1

theorem readInt16_buf (buf pre : Buffer) (L : Nat) (rest : Buffer) (off : Nat)
    (hbuf : buf = pre ++ beBytes 2 L ++ rest) (hoff : off = pre.length)
    (hL : L < 2 ^ 15) : readInt16 buf off = (L : Int) := by
  rw [hbuf]; exact readInt16_at_nat pre L rest off hoff hL

theorem readUint8_buf (buf pre : Buffer) (v : Nat) (rest : Buffer) (off : Nat)
    (hbuf : buf = pre ++ beBytes 1 v ++ rest) (hoff : off = pre.length)
    (hv : v < 256) : readUint8 buf off = v := by
  rw [hbuf]; exact readUint8_at pre v rest off hoff hv

theorem readUint24_buf (buf pre : Buffer) (v : Nat) (rest : Buffer) (off : Nat)
    (hbuf : buf = pre ++ beBytes 3 v ++ rest) (hoff : off = pre.length)
    (hv : v < 2 ^ 24) (hb : ByteBounded buf) : readUint24 buf off = v := by
  rw [hbuf] at hb ⊢
  exact readUint24_at pre v rest off hoff hv hb

theorem slice_buf (buf pre mid rest : Buffer) (s e : Nat)
    (hbuf : buf = pre ++ mid ++ rest) (hs : s = pre.length)
    (he : e = pre.length + mid.length) : slice buf s e = mid := by
  rw [hbuf]; exact slice_at pre mid rest s e hs he

theorem slice_end_buf (buf pre rest : Buffer) (s e : Nat)
    (hbuf : buf = pre ++ rest) (hs : s = pre.length) (he : e = buf.length) :
    slice buf s e = rest := by
  subst hbuf he
  exact slice_suffix pre rest s _ hs rfl

/-! ### Round-trip, frame by frame -/

theorem roundtrip_cancel (E : Encoders α) (sid : Int) (fl : Nat)
    (h : streamOkB sid fl = true) :
    deserializeFrame (serializeCancelFrame sid fl) E = .ok (.cancel sid fl) := by
  simp only [streamOkB, Bool.and_eq_true, decide_eq_true_eq] at h
  obtain ⟨⟨h0, h1⟩, hfl⟩ := h
  obtain ⟨hw, hwlt, hshift, hland⟩ := headerWord_spec FRAME_TYPES_CANCEL fl
    (by norm_num [FRAME_TYPES_CANCEL]) hfl
  rw [serializeCancel_eq, headerBytes, hw]
  simp only [deserializeFrame]
  rw [readInt32_buf _ [] sid (beBytes 2 (FRAME_TYPES_CANCEL * 1024 + fl)) 0
    (by simp) rfl (le_of_lt h0) h1]
  rw [if_neg (by omega)]
  rw [readUint16_buf _ (beBytes 4 (wrap32 sid)) (FRAME_TYPES_CANCEL * 1024 + fl) [] 4
    (by simp) (by simp [beBytes_length]) hwlt]
  rw [hshift, hland]
  norm_num [FRAME_TYPES_SETUP, FRAME_TYPES_PAYLOAD, FRAME_TYPES_ERROR, FRAME_TYPES_KEEPALIVE,
    FRAME_TYPES_REQUEST_FNF, FRAME_TYPES_REQUEST_RESPONSE, FRAME_TYPES_REQUEST_STREAM,
    FRAME_TYPES_REQUEST_CHANNEL, FRAME_TYPES_REQUEST_N, FRAME_TYPES_CANCEL, FRAME_TYPES_LEASE]
  simp only [deserializeCancelFrame]
  rw [if_neg (by omega)]

theorem roundtrip_requestN (E : Encoders α) (sid : Int) (fl : Nat) (rn : Int)
    (h : streamOkB sid fl = true) (h2 : 0 < rn) (h3 : rn < 2 ^ 31) :
    deserializeFrame (serializeRequestNFrame sid fl rn) E =
      .ok (.requestN sid fl rn) := by
  simp only [streamOkB, Bool.and_eq_true, decide_eq_true_eq] at h
  obtain ⟨⟨h0, h1⟩, hfl⟩ := h
  obtain ⟨hw, hwlt, hshift, hland⟩ := headerWord_spec FRAME_TYPES_REQUEST_N fl
    (by norm_num [FRAME_TYPES_REQUEST_N]) hfl
  rw [serializeRequestN_eq, headerBytes, hw]
  simp only [deserializeFrame]
  rw [readInt32_buf _ [] sid
    (beBytes 2 (FRAME_TYPES_REQUEST_N * 1024 + fl) ++ beBytes 4 (wrap32 rn)) 0
    (by simp) rfl (le_of_lt h0) h1]
  rw [if_neg (by omega)]
  rw [readUint16_buf _ (beBytes 4 (wrap32 sid)) (FRAME_TYPES_REQUEST_N * 1024 + fl)
    (beBytes 4 (wrap32 rn)) 4 (by simp) (by simp [beBytes_length]) hwlt]
  rw [hshift, hland]
  rw [if_neg (by decide), if_neg (by decide), if_neg (by decide), if_neg (by decide),
    if_neg (by decide), if_neg (by decide), if_neg (by decide), if_neg (by decide),
    if_pos rfl]
  simp only [deserializeRequestNFrame]
  rw [if_neg (by omega)]
  rw [readInt32_buf _
    (beBytes 4 (wrap32 sid) ++ beBytes 2 (FRAME_TYPES_REQUEST_N * 1024 + fl)) rn []
    FRAME_HEADER_SIZE (by simp) (by simp [beBytes_length, FRAME_HEADER_SIZE])
    (le_of_lt h2) h3]
  rw [if_neg (by omega)]

theorem readPayload_eq (E : Encoders α) (fl : Nat) (md d : Option α)
    (pre : Buffer) (off : Nat) (hpre : ByteBounded pre)
    (hmdl : E.metadata.Lawful) (hdl : E.data.Lawful)
    (hok : payloadOkB E fl md d = true) (hoff : off = pre.length) :
    readPayload E (pre ++ payloadBytes E fl md d) fl off = (md, d) := by
  rcases hm : isMetadata fl with _ | _
  · have hmd : md = none := by
      simp only [payloadOkB, hm, Bool.false_eq_true, if_false, Bool.and_eq_true] at hok
      exact Option.isNone_iff_eq_none.mp hok.1
    subst hmd
    cases d with
    | none =>
      simp only [payloadBytes, hm, Bool.false_eq_true, if_false, optBytes,
        List.nil_append, List.append_nil]
      simp only [readPayload, hm, Bool.false_eq_true, if_false]
      rw [if_neg (by omega)]
    | some dd =>
      have hne : E.data.enc dd ≠ [] := by
        intro hcon
        simp [payloadOkB, hm, optEncNonempty, hcon] at hok
      simp only [payloadBytes, hm, Bool.false_eq_true, if_false, optBytes,
        List.nil_append]
      simp only [readPayload, hm, Bool.false_eq_true, if_false]
      rw [if_pos (by
        simp only [List.length_append]
        have : 0 < (E.data.enc dd).length := List.length_pos.mpr hne
        omega)]
      rw [Encoder.decode, slice_end_buf _ pre (E.data.enc dd) off _ rfl hoff rfl,
        hdl.1 dd]
  · cases md with
    | none =>
      simp only [payloadBytes, hm, if_true, optBytes, optionByteLength, List.append_nil,
        List.nil_append]
      have hbb : ByteBounded (pre ++ (beBytes 3 0 ++ optBytes E.data d)) :=
        byteBounded_append hpre
          (byteBounded_append (byteBounded_beBytes _ _) (optBytes_lt hdl _))
      simp only [readPayload, hm, if_true, UINT24_SIZE]
      rw [readUint24_buf _ pre 0 (optBytes E.data d) off (by simp [optBytes]) hoff (by norm_num)
        (by simpa [optBytes] using hbb)]
      rw [if_neg (by omega)]
      cases d with
      | none =>
        simp only [optBytes, List.append_nil]
        rw [if_neg (by simp only [List.length_append, beBytes_length]; omega)]
      | some dd =>
        have hne : E.data.enc dd ≠ [] := by
          intro hcon
          simp [payloadOkB, hm, optEncNonempty, hcon] at hok
        simp only [optBytes]
        rw [if_pos (by
          simp only [List.length_append, beBytes_length]
          have hp : 0 < (E.data.enc dd).length := List.length_pos.mpr hne
          omega)]
        rw [Encoder.decode, slice_end_buf _ (pre ++ beBytes 3 0) (E.data.enc dd) (off + 3) _
          (by simp [optBytes]) (by simp [beBytes_length, hoff]) rfl, hdl.1 dd]
    | some m =>
      have hne : E.metadata.enc m ≠ [] := by
        intro hcon
        simp [payloadOkB, hm, optEncNonempty, hcon] at hok
      have hlen : (E.metadata.enc m).length < 2 ^ 24 := by
        simp only [payloadOkB, hm, if_true, Bool.and_eq_true, decide_eq_true_eq] at hok
        exact hok.1.2
      simp only [payloadBytes, hm, if_true, optBytes, optionByteLength, Encoder.byteLength]
      have hbb : ByteBounded (pre ++ (beBytes 3 (E.metadata.enc m).length ++
          E.metadata.enc m ++ optBytes E.data d)) :=
        byteBounded_append hpre (byteBounded_append
          (byteBounded_append (byteBounded_beBytes _ _) (hmdl.2 m)) (optBytes_lt hdl _))
      simp only [readPayload, hm, if_true, UINT24_SIZE]
      rw [readUint24_buf _ pre (E.metadata.enc m).length
        (E.metadata.enc m ++ optBytes E.data d) off (by simp [optBytes]) hoff hlen
        (by simpa [List.append_assoc] using hbb)]
      rw [if_pos (by have hp : 0 < (E.metadata.enc m).length := List.length_pos.mpr hne
                     omega)]
      rw [Encoder.decode, slice_buf _ (pre ++ beBytes 3 (E.metadata.enc m).length)
        (E.metadata.enc m) (optBytes E.data d) (off + 3) (off + 3 + (E.metadata.enc m).length)
        (by simp [optBytes]) (by simp [beBytes_length, hoff])
        (by simp [beBytes_length, hoff]; try omega), hmdl.1 m]
      cases d with
      | none =>
        simp only [optBytes, List.append_nil]
        rw [if_neg (by simp only [List.length_append, beBytes_length]; omega)]
      | some dd =>
        have hned : E.data.enc dd ≠ [] := by
          intro hcon
          simp [payloadOkB, hm, optEncNonempty, hcon] at hok
        simp only [optBytes]
        rw [if_pos (by
          simp only [List.length_append, beBytes_length]
          have hp : 0 < (E.data.enc dd).length := List.length_pos.mpr hned
          omega)]
        rw [Encoder.decode, slice_end_buf _
          (pre ++ beBytes 3 (E.metadata.enc m).length ++ E.metadata.enc m)
          (E.data.enc dd) (off + 3 + (E.metadata.enc m).length) _
          (by simp) (by simp [beBytes_length, hoff]; omega) rfl, hdl.1 dd]

theorem roundtrip_payload (E : Encoders α) (hE : E.Lawful) (sid : Int) (fl : Nat)
    (md d : Option α) (h : streamOkB sid fl = true)
    (hp : payloadOkB E fl md d = true) :
    deserializeFrame (serializePayloadFrame E sid fl md d) E =
      .ok (.payload sid fl md d) := by
  obtain ⟨hdl, _, _, hmdl, _, _⟩ := hE
  simp only [streamOkB, Bool.and_eq_true, decide_eq_true_eq] at h
  obtain ⟨⟨h0, h1⟩, hfl⟩ := h
  obtain ⟨hw, hwlt, hshift, hland⟩ := headerWord_spec FRAME_TYPES_PAYLOAD fl
    (by norm_num [FRAME_TYPES_PAYLOAD]) hfl
  rw [serializePayload_eq E sid fl md d (fun m _ => hmdl.2 m) (fun dd _ => hdl.2 dd),
    headerBytes, hw]
  simp only [deserializeFrame]
  rw [readInt32_buf _ [] sid
    (beBytes 2 (FRAME_TYPES_PAYLOAD * 1024 + fl) ++ payloadBytes E fl md d) 0
    (by simp) rfl (le_of_lt h0) h1]
  rw [if_neg (by omega)]
  rw [readUint16_buf _ (beBytes 4 (wrap32 sid)) (FRAME_TYPES_PAYLOAD * 1024 + fl)
    (payloadBytes E fl md d) 4 (by simp) (by simp [beBytes_length]) hwlt]
  rw [hshift, hland]
  rw [if_neg (by decide), if_pos rfl]
  simp only [deserializePayloadFrame]
  rw [if_neg (by omega)]
  rw [readPayload_eq E fl md d
    (beBytes 4 (wrap32 sid) ++ beBytes 2 (FRAME_TYPES_PAYLOAD * 1024 + fl))
    FRAME_HEADER_SIZE (byteBounded_append (byteBounded_beBytes _ _) (byteBounded_beBytes _ _))
    hmdl hdl hp (by simp [beBytes_length, FRAME_HEADER_SIZE])]

theorem roundtrip_requestFnf (E : Encoders α) (hE : E.Lawful) (sid : Int) (fl : Nat)
    (md d : Option α) (h : streamOkB sid fl = true)
    (hp : payloadOkB E fl md d = true) :
    deserializeFrame (serializeRequestFrame E FRAME_TYPES_REQUEST_FNF sid fl md d) E =
      .ok (.requestFnf sid fl md d) := by
  obtain ⟨hdl, _, _, hmdl, _, _⟩ := hE
  simp only [streamOkB, Bool.and_eq_true, decide_eq_true_eq] at h
  obtain ⟨⟨h0, h1⟩, hfl⟩ := h
  obtain ⟨hw, hwlt, hshift, hland⟩ := headerWord_spec FRAME_TYPES_REQUEST_FNF fl
    (by norm_num [FRAME_TYPES_REQUEST_FNF]) hfl
  rw [serializeRequest_eq E FRAME_TYPES_REQUEST_FNF sid fl md d
    (fun m _ => hmdl.2 m) (fun dd _ => hdl.2 dd), headerBytes, hw]
  simp only [deserializeFrame]
  rw [readInt32_buf _ [] sid
    (beBytes 2 (FRAME_TYPES_REQUEST_FNF * 1024 + fl) ++ payloadBytes E fl md d) 0
    (by simp) rfl (le_of_lt h0) h1]
  rw [if_neg (by omega)]
  rw [readUint16_buf _ (beBytes 4 (wrap32 sid)) (FRAME_TYPES_REQUEST_FNF * 1024 + fl)
    (payloadBytes E fl md d) 4 (by simp) (by simp [beBytes_length]) hwlt]
  rw [hshift, hland]
  rw [if_neg (by decide), if_neg (by decide), if_neg (by decide), if_neg (by decide),
    if_pos rfl]
  simp only [deserializeRequestFnfFrame]
  rw [if_neg (by omega)]
  rw [readPayload_eq E fl md d
    (beBytes 4 (wrap32 sid) ++ beBytes 2 (FRAME_TYPES_REQUEST_FNF * 1024 + fl))
    FRAME_HEADER_SIZE (byteBounded_append (byteBounded_beBytes _ _) (byteBounded_beBytes _ _))
    hmdl hdl hp (by simp [beBytes_length, FRAME_HEADER_SIZE])]

theorem roundtrip_requestResponse (E : Encoders α) (hE : E.Lawful) (sid : Int) (fl : Nat)
    (md d : Option α) (h : streamOkB sid fl = true)
    (hp : payloadOkB E fl md d = true) :
    deserializeFrame (serializeRequestFrame E FRAME_TYPES_REQUEST_RESPONSE sid fl md d) E =
      .ok (.requestResponse sid fl md d) := by
  obtain ⟨hdl, _, _, hmdl, _, _⟩ := hE
  simp only [streamOkB, Bool.and_eq_true, decide_eq_true_eq] at h
  obtain ⟨⟨h0, h1⟩, hfl⟩ := h
  obtain ⟨hw, hwlt, hshift, hland⟩ := headerWord_spec FRAME_TYPES_REQUEST_RESPONSE fl
    (by norm_num [FRAME_TYPES_REQUEST_RESPONSE]) hfl
  rw [serializeRequest_eq E FRAME_TYPES_REQUEST_RESPONSE sid fl md d
    (fun m _ => hmdl.2 m) (fun dd _ => hdl.2 dd), headerBytes, hw]
  simp only [deserializeFrame]
  rw [readInt32_buf _ [] sid
    (beBytes 2 (FRAME_TYPES_REQUEST_RESPONSE * 1024 + fl) ++ payloadBytes E fl md d) 0
    (by simp) rfl (le_of_lt h0) h1]
  rw [if_neg (by omega)]
  rw [readUint16_buf _ (beBytes 4 (wrap32 sid)) (FRAME_TYPES_REQUEST_RESPONSE * 1024 + fl)
    (payloadBytes E fl md d) 4 (by simp) (by simp [beBytes_length]) hwlt]
  rw [hshift, hland]
  rw [if_neg (by decide), if_neg (by decide), if_neg (by decide), if_neg (by decide),
    if_neg (by decide), if_pos rfl]
  simp only [deserializeRequestResponseFrame]
  rw [if_neg (by omega)]
  rw [readPayload_eq E fl md d
    (beBytes 4 (wrap32 sid) ++ beBytes 2 (FRAME_TYPES_REQUEST_RESPONSE * 1024 + fl))
    FRAME_HEADER_SIZE (byteBounded_append (byteBounded_beBytes _ _) (byteBounded_beBytes _ _))
    hmdl hdl hp (by simp [beBytes_length, FRAME_HEADER_SIZE])]

theorem roundtrip_requestStream (E : Encoders α) (hE : E.Lawful) (sid : Int) (fl : Nat)
    (rn : Int) (md d : Option α) (h : streamOkB sid fl = true)
    (h2 : 0 < rn) (h3 : rn < 2 ^ 31) (hp : payloadOkB E fl md d = true) :
    deserializeFrame (serializeRequestManyFrame E FRAME_TYPES_REQUEST_STREAM sid fl rn md d)
      E = .ok (.requestStream sid fl rn md d) := by
  obtain ⟨hdl, _, _, hmdl, _, _⟩ := hE
  simp only [streamOkB, Bool.and_eq_true, decide_eq_true_eq] at h
  obtain ⟨⟨h0, h1⟩, hfl⟩ := h
  obtain ⟨hw, hwlt, hshift, hland⟩ := headerWord_spec FRAME_TYPES_REQUEST_STREAM fl
    (by norm_num [FRAME_TYPES_REQUEST_STREAM]) hfl
  rw [serializeRequestMany_eq E FRAME_TYPES_REQUEST_STREAM sid fl rn md d
    (fun m _ => hmdl.2 m) (fun dd _ => hdl.2 dd), headerBytes, hw]
  simp only [deserializeFrame]
  rw [readInt32_buf _ [] sid (beBytes 2 (FRAME_TYPES_REQUEST_STREAM * 1024 + fl) ++
    (beBytes 4 (wrap32 rn) ++ payloadBytes E fl md d)) 0
    (by simp) rfl (le_of_lt h0) h1]
  rw [if_neg (by omega)]
  rw [readUint16_buf _ (beBytes 4 (wrap32 sid)) (FRAME_TYPES_REQUEST_STREAM * 1024 + fl)
    (beBytes 4 (wrap32 rn) ++ payloadBytes E fl md d) 4
    (by simp) (by simp [beBytes_length]) hwlt]
  rw [hshift, hland]
  rw [if_neg (by decide), if_neg (by decide), if_neg (by decide), if_neg (by decide),
    if_neg (by decide), if_neg (by decide), if_pos rfl]
  simp only [deserializeRequestStreamFrame]
  rw [if_neg (by omega)]
  rw [readInt32_buf _
    (beBytes 4 (wrap32 sid) ++ beBytes 2 (FRAME_TYPES_REQUEST_STREAM * 1024 + fl)) rn
    (payloadBytes E fl md d) FRAME_HEADER_SIZE (by simp)
    (by simp [beBytes_length, FRAME_HEADER_SIZE]) (le_of_lt h2) h3]
  rw [if_neg (by omega)]
  rw [readPayload_eq E fl md d
    (beBytes 4 (wrap32 sid) ++ beBytes 2 (FRAME_TYPES_REQUEST_STREAM * 1024 + fl) ++
      beBytes 4 (wrap32 rn)) (FRAME_HEADER_SIZE + 4)
    (byteBounded_append (byteBounded_append (byteBounded_beBytes _ _)
      (byteBounded_beBytes _ _)) (byteBounded_beBytes _ _))
    hmdl hdl hp (by simp [beBytes_length, FRAME_HEADER_SIZE])]

theorem roundtrip_requestChannel (E : Encoders α) (hE : E.Lawful) (sid : Int) (fl : Nat)
    (rn : Int) (md d : Option α) (h : streamOkB sid fl = true)
    (h2 : 0 < rn) (h3 : rn < 2 ^ 31) (hp : payloadOkB E fl md d = true) :
    deserializeFrame (serializeRequestManyFrame E FRAME_TYPES_REQUEST_CHANNEL sid fl rn md d)
      E = .ok (.requestChannel sid fl rn md d) := by
  obtain ⟨hdl, _, _, hmdl, _, _⟩ := hE
  simp only [streamOkB, Bool.and_eq_true, decide_eq_true_eq] at h
  obtain ⟨⟨h0, h1⟩, hfl⟩ := h
  obtain ⟨hw, hwlt, hshift, hland⟩ := headerWord_spec FRAME_TYPES_REQUEST_CHANNEL fl
    (by norm_num [FRAME_TYPES_REQUEST_CHANNEL]) hfl
  rw [serializeRequestMany_eq E FRAME_TYPES_REQUEST_CHANNEL sid fl rn md d
    (fun m _ => hmdl.2 m) (fun dd _ => hdl.2 dd), headerBytes, hw]
  simp only [deserializeFrame]
  rw [readInt32_buf _ [] sid (beBytes 2 (FRAME_TYPES_REQUEST_CHANNEL * 1024 + fl) ++
    (beBytes 4 (wrap32 rn) ++ payloadBytes E fl md d)) 0
    (by simp) rfl (le_of_lt h0) h1]
  rw [if_neg (by omega)]
  rw [readUint16_buf _ (beBytes 4 (wrap32 sid)) (FRAME_TYPES_REQUEST_CHANNEL * 1024 + fl)
    (beBytes 4 (wrap32 rn) ++ payloadBytes E fl md d) 4
    (by simp) (by simp [beBytes_length]) hwlt]
  rw [hshift, hland]
  rw [if_neg (by decide), if_neg (by decide), if_neg (by decide), if_neg (by decide),
    if_neg (by decide), if_neg (by decide), if_neg (by decide), if_pos rfl]
  simp only [deserializeRequestChannelFrame]
  rw [if_neg (by omega)]
  rw [readInt32_buf _
    (beBytes 4 (wrap32 sid) ++ beBytes 2 (FRAME_TYPES_REQUEST_CHANNEL * 1024 + fl)) rn
    (payloadBytes E fl md d) FRAME_HEADER_SIZE (by simp)
    (by simp [beBytes_length, FRAME_HEADER_SIZE]) (le_of_lt h2) h3]
  rw [if_neg (by omega)]
  rw [readPayload_eq E fl md d
    (beBytes 4 (wrap32 sid) ++ beBytes 2 (FRAME_TYPES_REQUEST_CHANNEL * 1024 + fl) ++
      beBytes 4 (wrap32 rn)) (FRAME_HEADER_SIZE + 4)
    (byteBounded_append (byteBounded_append (byteBounded_beBytes _ _)
      (byteBounded_beBytes _ _)) (byteBounded_beBytes _ _))
    hmdl hdl hp (by simp [beBytes_length, FRAME_HEADER_SIZE])]

theorem roundtrip_error (E : Encoders α) (hE : E.Lawful) (sid : Int) (fl : Nat)
    (code : Int) (m : Str) (h : streamOkB sid fl = true)
    (hc0 : 0 ≤ code) (hc1 : code ≤ MAX_CODE)
    (hm0 : E.message.enc m = [] → m = []) :
    deserializeFrame (serializeErrorFrame E sid fl code (some m)) E =
      .ok (.error sid fl code (some m)) := by
  obtain ⟨_, _, hml, _, _, _⟩ := hE
  simp only [streamOkB, Bool.and_eq_true, decide_eq_true_eq] at h
  obtain ⟨⟨h0, h1⟩, hfl⟩ := h
  obtain ⟨hw, hwlt, hshift, hland⟩ := headerWord_spec FRAME_TYPES_ERROR fl
    (by norm_num [FRAME_TYPES_ERROR]) hfl
  have hc1' : code < 2 ^ 31 := by
    rw [MAX_CODE] at hc1
    omega
  rw [serializeError_eq E sid fl code (some m) (hml.2 m), headerBytes, hw]
  simp only [deserializeFrame]
  rw [readInt32_buf _ [] sid (beBytes 2 (FRAME_TYPES_ERROR * 1024 + fl) ++
    (beBytes 4 (wrap32 code) ++ optBytes E.message (some m))) 0
    (by simp) rfl (le_of_lt h0) h1]
  rw [if_neg (by omega)]
  rw [readUint16_buf _ (beBytes 4 (wrap32 sid)) (FRAME_TYPES_ERROR * 1024 + fl)
    (beBytes 4 (wrap32 code) ++ optBytes E.message (some m)) 4
    (by simp) (by simp [beBytes_length]) hwlt]
  rw [hshift, hland]
  rw [if_neg (by decide), if_neg (by decide), if_pos rfl]
  simp only [deserializeErrorFrame]
  rw [readInt32_buf _
    (beBytes 4 (wrap32 sid) ++ beBytes 2 (FRAME_TYPES_ERROR * 1024 + fl)) code
    (optBytes E.message (some m)) FRAME_HEADER_SIZE (by simp)
    (by simp [beBytes_length, FRAME_HEADER_SIZE]) hc0 hc1']
  rw [if_neg (not_not_intro ⟨hc0, hc1⟩)]
  by_cases hcm : E.message.enc m = []
  · have hmnil : m = [] := hm0 hcm
    subst hmnil
    rw [if_neg (by
      simp only [optBytes, List.length_append, beBytes_length, FRAME_HEADER_SIZE, hcm,
        List.length_nil]
      omega)]
  · rw [if_pos (by
      simp only [optBytes, List.length_append, beBytes_length, FRAME_HEADER_SIZE]
      have hp : 0 < (E.message.enc m).length := List.length_pos.mpr hcm
      omega)]
    rw [Encoder.decode, slice_end_buf _
      (beBytes 4 (wrap32 sid) ++ beBytes 2 (FRAME_TYPES_ERROR * 1024 + fl) ++
        beBytes 4 (wrap32 code)) (E.message.enc m) (FRAME_HEADER_SIZE + 4) _
      (by simp [optBytes]) (by simp [beBytes_length, FRAME_HEADER_SIZE])
      (by simp only [optBytes, List.length_append, beBytes_length, FRAME_HEADER_SIZE]
          omega), hml.1 m]

theorem roundtrip_keepalive (E : Encoders α) (hE : E.Lawful) (fl pos : Nat)
    (d : Option α) (hfl : fl < 1024) (hpos : pos < 2 ^ 64)
    (hd : optEncNonempty E.data d = true) :
    deserializeFrame (serializeKeepAliveFrame E 0 fl pos d) E =
      .ok (.keepalive 0 fl pos d) := by
  obtain ⟨hdl, _, _, _, _, _⟩ := hE
  obtain ⟨hw, hwlt, hshift, hland⟩ := headerWord_spec FRAME_TYPES_KEEPALIVE fl
    (by norm_num [FRAME_TYPES_KEEPALIVE]) hfl
  rw [serializeKeepAlive_eq E 0 fl pos d (optBytes_lt hdl d), headerBytes, hw]
  simp only [deserializeFrame]
  rw [readInt32_buf _ [] 0 (beBytes 2 (FRAME_TYPES_KEEPALIVE * 1024 + fl) ++
    (beBytes 8 pos ++ optBytes E.data d)) 0 (by simp) rfl (le_refl 0) (by norm_num)]
  rw [if_neg (by decide)]
  rw [readUint16_buf _ (beBytes 4 (wrap32 0)) (FRAME_TYPES_KEEPALIVE * 1024 + fl)
    (beBytes 8 pos ++ optBytes E.data d) 4 (by simp) (by simp [beBytes_length]) hwlt]
  rw [hshift, hland]
  rw [if_neg (by decide), if_neg (by decide), if_neg (by decide), if_pos rfl]
  simp only [deserializeKeepAliveFrame]
  rw [if_neg (by simp)]
  rw [readUint64_buf _ (beBytes 4 (wrap32 0) ++ beBytes 2 (FRAME_TYPES_KEEPALIVE * 1024 + fl))
    pos (optBytes E.data d) FRAME_HEADER_SIZE (by simp)
    (by simp [beBytes_length, FRAME_HEADER_SIZE]) hpos]
  cases d with
  | none =>
    rw [if_neg (by
      simp only [optBytes, List.append_nil, List.length_append, beBytes_length,
        FRAME_HEADER_SIZE]
      omega)]
  | some dd =>
    have hne : E.data.enc dd ≠ [] := by
      intro hcon
      simp [optEncNonempty, hcon] at hd
    rw [if_pos (by
      simp only [optBytes, List.length_append, beBytes_length, FRAME_HEADER_SIZE]
      have hp : 0 < (E.data.enc dd).length := List.length_pos.mpr hne
      omega)]
    rw [Encoder.decode, slice_end_buf _
      (beBytes 4 (wrap32 0) ++ beBytes 2 (FRAME_TYPES_KEEPALIVE * 1024 + fl) ++ beBytes 8 pos)
      (E.data.enc dd) (FRAME_HEADER_SIZE + 8) _ (by simp [optBytes])
      (by simp [beBytes_length, FRAME_HEADER_SIZE]) rfl, hdl.1 dd]

theorem roundtrip_lease (E : Encoders α) (hE : E.Lawful) (fl ttl rc : Nat)
    (md : Option α) (hfl : fl < 1024) (httl : ttl < 2 ^ 32) (hrc : rc < 2 ^ 32)
    (hmd : optEncNonempty E.metadata md = true) :
    deserializeFrame (serializeLeaseFrame E 0 fl ttl rc md) E =
      .ok (.lease 0 fl ttl rc md) := by
  obtain ⟨_, _, _, hmdl, _, _⟩ := hE
  obtain ⟨hw, hwlt, hshift, hland⟩ := headerWord_spec FRAME_TYPES_LEASE fl
    (by norm_num [FRAME_TYPES_LEASE]) hfl
  rw [serializeLease_eq E 0 fl ttl rc md (optBytes_lt hmdl md), headerBytes, hw]
  simp only [deserializeFrame]
  rw [readInt32_buf _ [] 0 (beBytes 2 (FRAME_TYPES_LEASE * 1024 + fl) ++
    (beBytes 4 ttl ++ (beBytes 4 rc ++ optBytes E.metadata md))) 0
    (by simp) rfl (le_refl 0) (by norm_num)]
  rw [if_neg (by decide)]
  rw [readUint16_buf _ (beBytes 4 (wrap32 0)) (FRAME_TYPES_LEASE * 1024 + fl)
    (beBytes 4 ttl ++ (beBytes 4 rc ++ optBytes E.metadata md)) 4
    (by simp) (by simp [beBytes_length]) hwlt]
  rw [hshift, hland]
  rw [if_neg (by decide), if_neg (by decide), if_neg (by decide), if_neg (by decide),
    if_neg (by decide), if_neg (by decide), if_neg (by decide), if_neg (by decide),
    if_neg (by decide), if_neg (by decide), if_pos rfl]
  simp only [deserializeLeaseFrame]
  rw [if_neg (by simp)]
  rw [readUint32_buf _ (beBytes 4 (wrap32 0) ++ beBytes 2 (FRAME_TYPES_LEASE * 1024 + fl))
    ttl (beBytes 4 rc ++ optBytes E.metadata md) FRAME_HEADER_SIZE (by simp)
    (by simp [beBytes_length, FRAME_HEADER_SIZE]) httl]
  rw [readUint32_buf _ (beBytes 4 (wrap32 0) ++ beBytes 2 (FRAME_TYPES_LEASE * 1024 + fl) ++
    beBytes 4 ttl) rc (optBytes E.metadata md) (FRAME_HEADER_SIZE + 4) (by simp)
    (by simp [beBytes_length, FRAME_HEADER_SIZE]) hrc]
  cases md with
  | none =>
    rw [if_neg (by
      simp only [optBytes, List.append_nil, List.length_append, beBytes_length,
        FRAME_HEADER_SIZE]
      omega)]
  | some m =>
    have hne : E.metadata.enc m ≠ [] := by
      intro hcon
      simp [optEncNonempty, hcon] at hmd
    rw [if_pos (by
      simp only [optBytes, List.length_append, beBytes_length, FRAME_HEADER_SIZE]
      have hp : 0 < (E.metadata.enc m).length := List.length_pos.mpr hne
      omega)]
    rw [Encoder.decode, slice_end_buf _
      (beBytes 4 (wrap32 0) ++ beBytes 2 (FRAME_TYPES_LEASE * 1024 + fl) ++ beBytes 4 ttl ++
        beBytes 4 rc) (E.metadata.enc m) (FRAME_HEADER_SIZE + 4 + 4) _ (by simp [optBytes])
      (by simp [beBytes_length, FRAME_HEADER_SIZE]) rfl, hmdl.1 m]

theorem roundtrip_setup (E : Encoders α) (hE : E.Lawful) (fl major minor : Nat)
    (ka lt : Int) (rt0 : α) (mm0 dm0 : Str) (md d : Option α)
    (hfl : fl < 1024) (hmaj : major < 2 ^ 16) (hmin : minor < 2 ^ 16)
    (hka0 : 0 ≤ ka) (hka1 : ka ≤ MAX_KEEPALIVE) (hlt0 : 0 ≤ lt) (hlt1 : lt ≤ MAX_LIFETIME)
    (hrt : (E.resumeToken.enc rt0).length < 2 ^ 15)
    (hmm : (E.metadataMimeType.enc mm0).length < 2 ^ 8)
    (hdm : (E.dataMimeType.enc dm0).length < 2 ^ 8)
    (hp : payloadOkB E fl md d = true) :
    deserializeFrame (serializeSetupFrame E 0 fl major minor ka lt (some rt0) (some mm0)
      (some dm0) md d) E =
      .ok (.setup 0 fl major minor ka lt (some rt0) (some mm0) (some dm0) md d) := by
  obtain ⟨hdl, hdml, hml, hmdl, hmml, hrtl⟩ := hE
  obtain ⟨hw, hwlt, hshift, hland⟩ := headerWord_spec FRAME_TYPES_SETUP fl
    (by norm_num [FRAME_TYPES_SETUP]) hfl
  have hka1' : ka < 2 ^ 31 := by rw [MAX_KEEPALIVE] at hka1; norm_num at hka1 ⊢; omega
  have hlt1' : lt < 2 ^ 31 := by rw [MAX_LIFETIME] at hlt1; norm_num at hlt1 ⊢; omega
  have hmmn : (E.metadataMimeType.enc mm0).length < 256 := by norm_num at hmm; omega
  have hdmn : (E.dataMimeType.enc dm0).length < 256 := by norm_num at hdm; omega
  rw [serializeSetup_eq E 0 fl major minor ka lt (some rt0) (some mm0) (some dm0) md d
    (optBytes_lt hrtl _) (optBytes_lt hmml _) (optBytes_lt hdml _)
    (fun m _ => hmdl.2 m) (fun dd _ => hdl.2 dd)]
  simp only [optBytes]
  rw [headerBytes, hw]
  simp only [deserializeFrame]
  rw [readInt32_buf _ [] 0 (beBytes 2 (FRAME_TYPES_SETUP * 1024 + fl) ++ beBytes 2 major ++
    beBytes 2 minor ++ beBytes 4 (wrap32 ka) ++ beBytes 4 (wrap32 lt) ++
    beBytes 2 (E.resumeToken.enc rt0).length ++ E.resumeToken.enc rt0 ++
    beBytes 1 (E.metadataMimeType.enc mm0).length ++ E.metadataMimeType.enc mm0 ++
    beBytes 1 (E.dataMimeType.enc dm0).length ++ E.dataMimeType.enc dm0 ++
    payloadBytes E fl md d) 0 (by simp) rfl (le_refl 0) (by norm_num)]
  rw [if_neg (by decide)]
  rw [readUint16_buf _ (beBytes 4 (wrap32 0)) (FRAME_TYPES_SETUP * 1024 + fl)
    (beBytes 2 major ++ beBytes 2 minor ++ beBytes 4 (wrap32 ka) ++ beBytes 4 (wrap32 lt) ++
    beBytes 2 (E.resumeToken.enc rt0).length ++ E.resumeToken.enc rt0 ++
    beBytes 1 (E.metadataMimeType.enc mm0).length ++ E.metadataMimeType.enc mm0 ++
    beBytes 1 (E.dataMimeType.enc dm0).length ++ E.dataMimeType.enc dm0 ++
    payloadBytes E fl md d) 4 (by simp) (by simp [beBytes_length]) hwlt]
  rw [hshift, hland, if_pos rfl]
  simp only [deserializeSetupFrame]
  rw [if_neg (by simp)]
  rw [readUint16_buf _
    (beBytes 4 (wrap32 0) ++ beBytes 2 (FRAME_TYPES_SETUP * 1024 + fl)) major
    (beBytes 2 minor ++ beBytes 4 (wrap32 ka) ++ beBytes 4 (wrap32 lt) ++
    beBytes 2 (E.resumeToken.enc rt0).length ++ E.resumeToken.enc rt0 ++
    beBytes 1 (E.metadataMimeType.enc mm0).length ++ E.metadataMimeType.enc mm0 ++
    beBytes 1 (E.dataMimeType.enc dm0).length ++ E.dataMimeType.enc dm0 ++
    payloadBytes E fl md d) FRAME_HEADER_SIZE
    (by simp) (by simp [beBytes_length, FRAME_HEADER_SIZE]) hmaj]
  rw [readUint16_buf _
    (beBytes 4 (wrap32 0) ++ beBytes 2 (FRAME_TYPES_SETUP * 1024 + fl) ++ beBytes 2 major)
    minor (beBytes 4 (wrap32 ka) ++ beBytes 4 (wrap32 lt) ++
    beBytes 2 (E.resumeToken.enc rt0).length ++ E.resumeToken.enc rt0 ++
    beBytes 1 (E.metadataMimeType.enc mm0).length ++ E.metadataMimeType.enc mm0 ++
    beBytes 1 (E.dataMimeType.enc dm0).length ++ E.dataMimeType.enc dm0 ++
    payloadBytes E fl md d) (FRAME_HEADER_SIZE + 2)
    (by simp) (by simp [beBytes_length, FRAME_HEADER_SIZE]) hmin]
  rw [readInt32_buf _
    (beBytes 4 (wrap32 0) ++ beBytes 2 (FRAME_TYPES_SETUP * 1024 + fl) ++ beBytes 2 major ++
      beBytes 2 minor) ka
    (beBytes 4 (wrap32 lt) ++ beBytes 2 (E.resumeToken.enc rt0).length ++
    E.resumeToken.enc rt0 ++ beBytes 1 (E.metadataMimeType.enc mm0).length ++
    E.metadataMimeType.enc mm0 ++ beBytes 1 (E.dataMimeType.enc dm0).length ++
    E.dataMimeType.enc dm0 ++ payloadBytes E fl md d) (FRAME_HEADER_SIZE + 2 + 2)
    (by simp) (by simp [beBytes_length, FRAME_HEADER_SIZE]) hka0 hka1']
  rw [if_neg (not_not_intro ⟨hka0, hka1⟩)]
  rw [readInt32_buf _
    (beBytes 4 (wrap32 0) ++ beBytes 2 (FRAME_TYPES_SETUP * 1024 + fl) ++ beBytes 2 major ++
      beBytes 2 minor ++ beBytes 4 (wrap32 ka)) lt
    (beBytes 2 (E.resumeToken.enc rt0).length ++ E.resumeToken.enc rt0 ++
    beBytes 1 (E.metadataMimeType.enc mm0).length ++ E.metadataMimeType.enc mm0 ++
    beBytes 1 (E.dataMimeType.enc dm0).length ++ E.dataMimeType.enc dm0 ++
    payloadBytes E fl md d) (FRAME_HEADER_SIZE + 2 + 2 + 4)
    (by simp) (by simp [beBytes_length, FRAME_HEADER_SIZE]) hlt0 hlt1']
  rw [if_neg (not_not_intro ⟨hlt0, hlt1⟩)]
  rw [readInt16_buf _
    (beBytes 4 (wrap32 0) ++ beBytes 2 (FRAME_TYPES_SETUP * 1024 + fl) ++ beBytes 2 major ++
      beBytes 2 minor ++ beBytes 4 (wrap32 ka) ++ beBytes 4 (wrap32 lt))
    (E.resumeToken.enc rt0).length
    (E.resumeToken.enc rt0 ++ beBytes 1 (E.metadataMimeType.enc mm0).length ++
    E.metadataMimeType.enc mm0 ++ beBytes 1 (E.dataMimeType.enc dm0).length ++
    E.dataMimeType.enc dm0 ++ payloadBytes E fl md d) (FRAME_HEADER_SIZE + 2 + 2 + 4 + 4)
    (by simp) (by simp [beBytes_length, FRAME_HEADER_SIZE]) hrt]
  rw [if_neg (not_not_intro ⟨by omega, by rw [MAX_RESUME_LENGTH]; omega⟩)]
  simp only [Int.toNat_natCast]
  rw [readUint8_buf _
    (beBytes 4 (wrap32 0) ++ beBytes 2 (FRAME_TYPES_SETUP * 1024 + fl) ++ beBytes 2 major ++
      beBytes 2 minor ++ beBytes 4 (wrap32 ka) ++ beBytes 4 (wrap32 lt) ++
      beBytes 2 (E.resumeToken.enc rt0).length ++ E.resumeToken.enc rt0)
    (E.metadataMimeType.enc mm0).length
    (E.metadataMimeType.enc mm0 ++ beBytes 1 (E.dataMimeType.enc dm0).length ++
    E.dataMimeType.enc dm0 ++ payloadBytes E fl md d)
    (FRAME_HEADER_SIZE + 2 + 2 + 4 + 4 + 2 + (E.resumeToken.enc rt0).length)
    (by simp) (by simp [beBytes_length, FRAME_HEADER_SIZE]; try omega) hmmn]
  rw [readUint8_buf _
    (beBytes 4 (wrap32 0) ++ beBytes 2 (FRAME_TYPES_SETUP * 1024 + fl) ++ beBytes 2 major ++
      beBytes 2 minor ++ beBytes 4 (wrap32 ka) ++ beBytes 4 (wrap32 lt) ++
      beBytes 2 (E.resumeToken.enc rt0).length ++ E.resumeToken.enc rt0 ++
      beBytes 1 (E.metadataMimeType.enc mm0).length ++ E.metadataMimeType.enc mm0)
    (E.dataMimeType.enc dm0).length
    (E.dataMimeType.enc dm0 ++ payloadBytes E fl md d)
    (FRAME_HEADER_SIZE + 2 + 2 + 4 + 4 + 2 + (E.resumeToken.enc rt0).length + 1 +
      (E.metadataMimeType.enc mm0).length)
    (by simp) (by simp [beBytes_length, FRAME_HEADER_SIZE]; try omega) hdmn]
  simp only [Encoder.decode]
  rw [slice_buf _
    (beBytes 4 (wrap32 0) ++ beBytes 2 (FRAME_TYPES_SETUP * 1024 + fl) ++ beBytes 2 major ++
      beBytes 2 minor ++ beBytes 4 (wrap32 ka) ++ beBytes 4 (wrap32 lt) ++
      beBytes 2 (E.resumeToken.enc rt0).length)
    (E.resumeToken.enc rt0)
    (beBytes 1 (E.metadataMimeType.enc mm0).length ++ E.metadataMimeType.enc mm0 ++
    beBytes 1 (E.dataMimeType.enc dm0).length ++ E.dataMimeType.enc dm0 ++
    payloadBytes E fl md d) _ _
    (by simp) (by simp [beBytes_length, FRAME_HEADER_SIZE]; try omega)
    (by simp [beBytes_length, FRAME_HEADER_SIZE]; try omega), hrtl.1 rt0]
  rw [slice_buf _
    (beBytes 4 (wrap32 0) ++ beBytes 2 (FRAME_TYPES_SETUP * 1024 + fl) ++ beBytes 2 major ++
      beBytes 2 minor ++ beBytes 4 (wrap32 ka) ++ beBytes 4 (wrap32 lt) ++
      beBytes 2 (E.resumeToken.enc rt0).length ++ E.resumeToken.enc rt0 ++
      beBytes 1 (E.metadataMimeType.enc mm0).length)
    (E.metadataMimeType.enc mm0)
    (beBytes 1 (E.dataMimeType.enc dm0).length ++ E.dataMimeType.enc dm0 ++
    payloadBytes E fl md d) _ _
    (by simp) (by simp [beBytes_length, FRAME_HEADER_SIZE]; try omega)
    (by simp [beBytes_length, FRAME_HEADER_SIZE]; try omega), hmml.1 mm0]
  rw [slice_buf _
    (beBytes 4 (wrap32 0) ++ beBytes 2 (FRAME_TYPES_SETUP * 1024 + fl) ++ beBytes 2 major ++
      beBytes 2 minor ++ beBytes 4 (wrap32 ka) ++ beBytes 4 (wrap32 lt) ++
      beBytes 2 (E.resumeToken.enc rt0).length ++ E.resumeToken.enc rt0 ++
      beBytes 1 (E.metadataMimeType.enc mm0).length ++ E.metadataMimeType.enc mm0 ++
      beBytes 1 (E.dataMimeType.enc dm0).length)
    (E.dataMimeType.enc dm0) (payloadBytes E fl md d) _ _
    (by simp) (by simp [beBytes_length, FRAME_HEADER_SIZE]; try omega)
    (by simp [beBytes_length, FRAME_HEADER_SIZE]; try omega), hdml.1 dm0]
  rw [readPayload_eq E fl md d
    (beBytes 4 (wrap32 0) ++ beBytes 2 (FRAME_TYPES_SETUP * 1024 + fl) ++ beBytes 2 major ++
      beBytes 2 minor ++ beBytes 4 (wrap32 ka) ++ beBytes 4 (wrap32 lt) ++
      beBytes 2 (E.resumeToken.enc rt0).length ++ E.resumeToken.enc rt0 ++
      beBytes 1 (E.metadataMimeType.enc mm0).length ++ E.metadataMimeType.enc mm0 ++
      beBytes 1 (E.dataMimeType.enc dm0).length ++ E.dataMimeType.enc dm0)
    (FRAME_HEADER_SIZE + 2 + 2 + 4 + 4 + 2 + (E.resumeToken.enc rt0).length + 1 +
      (E.metadataMimeType.enc mm0).length + 1 + (E.dataMimeType.enc dm0).length)
    (by
      repeat' apply byteBounded_append
      all_goals first
        | exact byteBounded_beBytes _ _
        | exact hrtl.2 rt0
        | exact hmml.2 mm0
        | exact hdml.2 dm0)
    hmdl hdl hp
    (by simp [beBytes_length, FRAME_HEADER_SIZE]; try omega)]

theorem roundtrip_aux (E : Encoders α) (hE : E.Lawful) (f : Frame α)
    (hf : validB E f = true) :
    deserializeFrame (serializeFrame f E) E = .ok f := by
  cases f with
  | setup sid fl major minor ka lt rt mm dm md d =>
    cases rt with
    | none => simp [validB] at hf
    | some rt0 =>
      cases mm with
      | none => simp [validB] at hf
      | some mm0 =>
        cases dm with
        | none => simp [validB] at hf
        | some dm0 =>
          simp only [validB, Bool.and_eq_true, decide_eq_true_eq, and_assoc] at hf
          obtain ⟨hsid, hfl, hmaj, hmin, hka0, hka1, hlt0, hlt1, hrt, hmm, hdm, hp⟩ := hf
          subst hsid
          simp only [serializeFrame]
          exact roundtrip_setup E ⟨hE.1, hE.2.1, hE.2.2.1, hE.2.2.2.1, hE.2.2.2.2.1,
            hE.2.2.2.2.2⟩ fl major minor ka lt rt0 mm0 dm0 md d hfl hmaj hmin hka0 hka1
            hlt0 hlt1 hrt hmm hdm hp
  | error sid fl code msg =>
    cases msg with
    | none => simp [validB] at hf
    | some m =>
      simp only [validB, Bool.and_eq_true, decide_eq_true_eq, and_assoc] at hf
      obtain ⟨hst, hc0, hc1, hlast⟩ := hf
      have hm0 : E.message.enc m = [] → m = [] := fun hcon => by
        rw [hcon] at hlast
        simpa using hlast
      simp only [serializeFrame]
      exact roundtrip_error E hE sid fl code m hst hc0 hc1 hm0
  | keepalive sid fl pos d =>
    simp only [validB, Bool.and_eq_true, decide_eq_true_eq, and_assoc] at hf
    obtain ⟨hsid, hfl, hpos, hd⟩ := hf
    subst hsid
    simp only [serializeFrame]
    exact roundtrip_keepalive E hE fl pos d hfl hpos hd
  | lease sid fl ttl rc md =>
    simp only [validB, Bool.and_eq_true, decide_eq_true_eq, and_assoc] at hf
    obtain ⟨hsid, hfl, httl, hrc, hmd⟩ := hf
    subst hsid
    simp only [serializeFrame]
    exact roundtrip_lease E hE fl ttl rc md hfl httl hrc hmd
  | requestFnf sid fl md d =>
    simp only [validB, Bool.and_eq_true, and_assoc] at hf
    obtain ⟨hst, hp⟩ := hf
    simp only [serializeFrame]
    exact roundtrip_requestFnf E hE sid fl md d hst hp
  | requestResponse sid fl md d =>
    simp only [validB, Bool.and_eq_true, and_assoc] at hf
    obtain ⟨hst, hp⟩ := hf
    simp only [serializeFrame]
    exact roundtrip_requestResponse E hE sid fl md d hst hp
  | requestStream sid fl rn md d =>
    simp only [validB, Bool.and_eq_true, decide_eq_true_eq, and_assoc] at hf
    obtain ⟨hst, h2, h3, hp⟩ := hf
    simp only [serializeFrame]
    exact roundtrip_requestStream E hE sid fl rn md d hst h2 h3 hp
  | requestChannel sid fl rn md d =>
    simp only [validB, Bool.and_eq_true, decide_eq_true_eq, and_assoc] at hf
    obtain ⟨hst, h2, h3, hp⟩ := hf
    simp only [serializeFrame]
    exact roundtrip_requestChannel E hE sid fl rn md d hst h2 h3 hp
  | requestN sid fl rn =>
    simp only [validB, Bool.and_eq_true, decide_eq_true_eq, and_assoc] at hf
    obtain ⟨hst, h2, h3⟩ := hf
    simp only [serializeFrame]
    exact roundtrip_requestN E sid fl rn hst h2 h3
  | cancel sid fl =>
    simp only [validB] at hf
    simp only [serializeFrame]
    exact roundtrip_cancel E sid fl hf
  | payload sid fl md d =>
    simp only [validB, Bool.and_eq_true, and_assoc] at hf
    obtain ⟨hst, hp⟩ := hf
    simp only [serializeFrame]
    exact roundtrip_payload E hE sid fl md d hst hp

/-! ### Lengths and byte-boundedness of serialized frames -/

theorem serializeFrame_length (E : Encoders α) (f : Frame α) :
    (serializeFrame f E).length = serializedLength E f := by
  cases f <;>
    simp [serializeFrame, serializeSetupFrame, serializeErrorFrame, serializeKeepAliveFrame,
      serializeLeaseFrame, serializeRequestFrame, serializeRequestManyFrame,
      serializeRequestNFrame, serializeCancelFrame, serializePayloadFrame, serializedLength,
      optionEncode_eq, writeHeader, writeInt32, writeUint16, writeUint32, writeUint64,
      writeUint8, writeUint24_eq, writePayload_length, writeBytes_length, Encoder.encode,
      allocate]

theorem serializedLength_ge (E : Encoders α) (f : Frame α) :
    6 ≤ serializedLength E f := by
  cases f <;>
    simp only [serializedLength, FRAME_HEADER_SIZE, SETUP_FIXED_SIZE, ERROR_FIXED_SIZE,
      KEEPALIVE_FIXED_SIZE, LEASE_FIXED_SIZE, REQUEST_MANY_HEADER, REQUEST_N_HEADER] <;>
    omega

theorem byteBounded_allocate (n : Nat) : ByteBounded (allocate n) := by
  intro b hb
  rw [allocate] at hb
  rw [List.eq_of_mem_replicate hb]
  norm_num

theorem byteBounded_writeBytes (buf : Buffer) (off : Nat) (bs : List Nat)
    (h : ByteBounded buf) : ByteBounded (writeBytes buf off bs) := by
  induction bs generalizing buf off with
  | nil => exact h
  | cons b bs ih =>
    rw [writeBytes]
    apply ih
    intro x hx
    rcases List.mem_or_eq_of_mem_set hx with hx | hx
    · exact h x hx
    · rw [hx]; exact Nat.mod_lt _ (by norm_num)

theorem byteBounded_writePayload (E : Encoders α) (fl : Nat) (md d : Option α)
    (buf : Buffer) (off : Nat) (h : ByteBounded buf) :
    ByteBounded (writePayload E fl md d buf off) := by
  rcases hm : isMetadata fl with _ | _ <;>
    cases md <;> cases d <;>
      simp only [writePayload, hm, writeUint24_eq, Encoder.encode, Bool.false_eq_true,
        if_false, if_true] <;>
      repeat'
        first
          | assumption
          | apply byteBounded_writeBytes

theorem byteBounded_serializeFrame (E : Encoders α) (f : Frame α) :
    ByteBounded (serializeFrame f E) := by
  cases f with
  | setup sid fl major minor ka lt rt mm dm md d =>
    simp only [serializeFrame, serializeSetupFrame, optionEncode_eq, writeHeader,
      writeInt32, writeUint16, writeUint32, writeUint64, writeUint8, writeUint24_eq,
      Encoder.encode]
    apply byteBounded_writePayload
    repeat' apply byteBounded_writeBytes
    exact byteBounded_allocate _
  | error sid fl code msg =>
    simp only [serializeFrame, serializeErrorFrame, optionEncode_eq, writeHeader,
      writeInt32, writeUint16, writeUint32, writeUint64, writeUint8, writeUint24_eq,
      Encoder.encode]
    repeat' apply byteBounded_writeBytes
    exact byteBounded_allocate _
  | keepalive sid fl pos d =>
    simp only [serializeFrame, serializeKeepAliveFrame, optionEncode_eq, writeHeader,
      writeInt32, writeUint16, writeUint32, writeUint64, writeUint8, writeUint24_eq,
      Encoder.encode]
    repeat' apply byteBounded_writeBytes
    exact byteBounded_allocate _
  | lease sid fl ttl rc md =>
    simp only [serializeFrame, serializeLeaseFrame, optionEncode_eq, writeHeader,
      writeInt32, writeUint16, writeUint32, writeUint64, writeUint8, writeUint24_eq,
      Encoder.encode]
    repeat' apply byteBounded_writeBytes
    exact byteBounded_allocate _
  | requestFnf sid fl md d =>
    simp only [serializeFrame, serializeRequestFrame, writeHeader, writeInt32,
      writeUint16, writeUint24_eq]
    apply byteBounded_writePayload
    repeat' apply byteBounded_writeBytes
    exact byteBounded_allocate _
  | requestResponse sid fl md d =>
    simp only [serializeFrame, serializeRequestFrame, writeHeader, writeInt32,
      writeUint16, writeUint24_eq]
    apply byteBounded_writePayload
    repeat' apply byteBounded_writeBytes
    exact byteBounded_allocate _
  | requestStream sid fl rn md d =>
    simp only [serializeFrame, serializeRequestManyFrame, writeHeader, writeInt32,
      writeUint16, writeUint32, writeUint24_eq]
    apply byteBounded_writePayload
    repeat' apply byteBounded_writeBytes
    exact byteBounded_allocate _
  | requestChannel sid fl rn md d =>
    simp only [serializeFrame, serializeRequestManyFrame, writeHeader, writeInt32,
      writeUint16, writeUint32, writeUint24_eq]
    apply byteBounded_writePayload
    repeat' apply byteBounded_writeBytes
    exact byteBounded_allocate _
  | requestN sid fl rn =>
    simp only [serializeFrame, serializeRequestNFrame, writeHeader, writeInt32,
      writeUint16, writeUint32, writeUint24_eq]
    repeat' apply byteBounded_writeBytes
    exact byteBounded_allocate _
  | cancel sid fl =>
    simp only [serializeFrame, serializeCancelFrame, writeHeader, writeInt32,
      writeUint16, writeUint24_eq]
    repeat' apply byteBounded_writeBytes
    exact byteBounded_allocate _
  | payload sid fl md d =>
    simp only [serializeFrame, serializePayloadFrame, writeHeader, writeInt32,
      writeUint16, writeUint24_eq]
    apply byteBounded_writePayload
    repeat' apply byteBounded_writeBytes
    exact byteBounded_allocate _

theorem slice_all (buf : Buffer) : slice buf 0 buf.length = buf := by
  simp [slice]

theorem serializeFrameWithLength_eq (E : Encoders α) (f : Frame α)
    (hlen : (serializeFrame f E).length < 2 ^ 24) :
    serializeFrameWithLength f E =
      beBytes 3 (serializeFrame f E).length ++ serializeFrame f E := by
  rw [serializeFrameWithLength]
  simp only [copyTo, UINT24_SIZE, writeUint24_eq, allocate]
  rw [writeBytes_step0 _ _ (by rw [beBytes_length]; omega) (beBytes_lt _ _)]
  rw [beBytes_length, slice_all]
  rw [writeBytes_step (beBytes 3 (serializeFrame f E).length) _ _ 3
    (by rw [beBytes_length]) (by omega) (byteBounded_serializeFrame E f)]
  simp

/-! ### The framer loop on concatenations of length-prefixed frames -/

theorem byteBounded_serializeFrameWithLength (E : Encoders α) (f : Frame α) :
    ByteBounded (serializeFrameWithLength f E) := by
  simp only [serializeFrameWithLength, copyTo, writeUint24_eq]
  apply byteBounded_writeBytes
  apply byteBounded_writeBytes
  exact byteBounded_allocate _

theorem byteBounded_framesBytes (E : Encoders α) (fs : List (Frame α)) :
    ByteBounded ((fs.map (fun f => serializeFrameWithLength f E)).flatten) := by
  induction fs with
  | nil => intro b hb; simp at hb
  | cons f fs ih =>
    simp only [List.map_cons, List.flatten_cons]
    exact byteBounded_append (byteBounded_serializeFrameWithLength E f) ih

theorem deserializeFramesLoop_spec (E : Encoders α) (hE : E.Lawful) :
    ∀ (fs : List (Frame α)) (buf pre : Buffer),
      (∀ f ∈ fs, validB E f = true ∧ (serializeFrame f E).length < 2 ^ 24) →
      ByteBounded pre →
      buf = pre ++ (fs.map (fun f => serializeFrameWithLength f E)).flatten →
      deserializeFramesLoop buf E pre.length = .ok (fs, []) := by
  intro fs
  induction fs with
  | nil =>
    intro buf pre _ _ hbuf
    simp only [List.map_nil, List.flatten_nil, List.append_nil] at hbuf
    subst hbuf
    rw [deserializeFramesLoop]
    rw [dif_neg (by simp only [UINT24_SIZE]; omega)]
    rw [slice_nil _ _ _ (le_refl _)]
  | cons f fs ih =>
    intro buf pre hfs hpre hbuf
    have hf := hfs f (List.mem_cons_self f fs)
    have hlen : (serializeFrame f E).length < 2 ^ 24 := hf.2
    have hL6 : 6 ≤ (serializeFrame f E).length := by
      rw [serializeFrame_length]; exact serializedLength_ge E f
    have hflat : buf = pre ++ beBytes 3 (serializeFrame f E).length ++
        (serializeFrame f E ++ (fs.map (fun g => serializeFrameWithLength g E)).flatten) := by
      rw [hbuf]
      simp only [List.map_cons, List.flatten_cons, serializeFrameWithLength_eq E f hlen,
        List.append_assoc]
    have hbb : ByteBounded buf := by
      rw [hflat]
      exact byteBounded_append
        (byteBounded_append hpre (byteBounded_beBytes _ _))
        (byteBounded_append (byteBounded_serializeFrame E f)
          (byteBounded_framesBytes E fs))
    have hlenbuf : buf.length = pre.length + 3 + (serializeFrame f E).length +
        ((fs.map (fun g => serializeFrameWithLength g E)).flatten).length := by
      rw [hflat]; simp [beBytes_length]; omega
    rw [deserializeFramesLoop]
    rw [dif_pos (by simp only [UINT24_SIZE]; omega)]
    rw [readUint24_buf buf pre (serializeFrame f E).length _ pre.length hflat rfl hlen hbb]
    simp only [UINT24_SIZE, gt_iff_lt]
    rw [if_neg (by omega)]
    rw [slice_buf buf (pre ++ beBytes 3 (serializeFrame f E).length) (serializeFrame f E)
      ((fs.map (fun g => serializeFrameWithLength g E)).flatten)
      (pre.length + 3) (pre.length + 3 + (serializeFrame f E).length)
      (by rw [hflat]; simp)
      (by simp only [List.length_append, beBytes_length])
      (by simp only [List.length_append, beBytes_length]; try omega)]
    rw [show pre.length + 3 + (serializeFrame f E).length =
        (pre ++ beBytes 3 (serializeFrame f E).length ++ serializeFrame f E).length from by
      simp only [List.length_append, beBytes_length]]
    rw [ih buf (pre ++ beBytes 3 (serializeFrame f E).length ++ serializeFrame f E)
      (fun g hg => hfs g (List.mem_cons_of_mem f hg))
      (byteBounded_append (byteBounded_append hpre (byteBounded_beBytes _ _))
        (byteBounded_serializeFrame E f))
      (by rw [hflat]; simp)]
    rw [roundtrip_aux E hE f hf.1]

theorem deserializeFrames_spec (E : Encoders α) (hE : E.Lawful)
    (fs : List (Frame α))
    (hfs : ∀ f ∈ fs, validB E f = true ∧ (serializeFrame f E).length < 2 ^ 24) :
    deserializeFrames ((fs.map (fun f => serializeFrameWithLength f E)).flatten) E
      = .ok (fs, []) := by
  rw [deserializeFrames]
  have h := deserializeFramesLoop_spec E hE fs
    ((fs.map (fun f => serializeFrameWithLength f E)).flatten) [] hfs
    (by intro b hb; simp at hb) (by simp)
  simpa using h

/-! ### The claims -/

/-- C1: for every valid frame `f` (all eleven kinds, fields within their
stated bounds — here the round-trip validity `validB`, which additionally
requires present optional fields to encode to at least one byte and
metadata only under the METADATA flag) and every lawful encoder set `E`,
deserializing the serialization of `f` yields exactly `f`, flags included.
The unamended claim (all data-model-valid frames) is refuted by
`C1_failing`: a present data field that encodes to zero bytes parses back
as absent. -/
theorem C1_roundtrip (E : Encoders α) (hE : E.Lawful) (f : Frame α)
    (hf : validB E f = true) :
    deserializeFrame (serializeFrame f E) E = Except.ok f :=
  roundtrip_aux E hE f hf

/-- Witness for C1 at a concrete PAYLOAD frame with metadata and data. -/
theorem C1_roundtrip_witness :
    deserializeFrame (serializeFrame (Frame.payload 1 258 (some [1]) (some [2]))
        UnaryEncoders) UnaryEncoders =
      Except.ok (Frame.payload 1 258 (some [1]) (some [2])) :=
  C1_roundtrip UnaryEncoders UnaryEncoders_lawful
    (Frame.payload 1 258 (some [1]) (some [2])) (by decide)

/-- Counterexample to C1 as stated: a PAYLOAD frame with `data` present
but encoding to zero bytes does not round-trip (the data comes back
absent). -/
theorem C1_failing :
    deserializeFrame (serializeFrame (Frame.payload 1 0 none (some ([] : List Nat)))
        UnaryEncoders) UnaryEncoders ≠
      Except.ok (Frame.payload 1 0 none (some [])) := by
  have h : deserializeFrame (serializeFrame (Frame.payload 1 0 none (some ([] : List Nat)))
      UnaryEncoders) UnaryEncoders = Except.ok (Frame.payload 1 0 none none) := by rfl
  rw [h]
  simp

/-- C2 (amended): the ERROR-frame parser performs no stream-id check at
all — for any stream id, including 0, it succeeds exactly when the code
read at offset 6 lies in `[0, MAX_CODE]` — while CANCEL (like REQUEST_*
and PAYLOAD) rejects a zero stream id. -/
theorem C2_errorFrameChecks (buf : Buffer) (sid : Int) (fl : Nat) (E : Encoders α) :
    ((∃ g, deserializeErrorFrame buf sid fl E = Except.ok g) ↔
      (0 ≤ readInt32 buf 6 ∧ readInt32 buf 6 ≤ MAX_CODE)) ∧
    (sid = 0 → ∃ e, deserializeCancelFrame buf sid fl E = Except.error e) := by
  constructor
  · simp only [deserializeErrorFrame, FRAME_HEADER_SIZE]
    split_ifs with h1 h2
    · exact iff_of_true ⟨_, rfl⟩ h1
    · exact iff_of_true ⟨_, rfl⟩ h1
    · exact iff_of_false (by simp) h1
  · intro hs
    simp only [deserializeCancelFrame]
    rw [if_pos (show ¬ sid > 0 by omega)]
    exact ⟨_, rfl⟩

/-- Counterexample to C2 as stated: a 10-byte ERROR frame whose header
carries stream id 0 parses successfully (no InvariantViolation). -/
theorem C2_failing :
    deserializeFrame [0, 0, 0, 0, 44, 0, 0, 0, 0, 0] UnaryEncoders =
      Except.ok (Frame.error 0 0 0 (some [])) := by rfl

/-- C3 (amended): a buffer that is exactly the concatenation of the
length-prefixed serializations of round-trip-valid frames, each shorter
than 2^24 bytes, deserializes to exactly that frame list with empty
leftover. The unamended claim is refuted by `C3_failing` (a valid frame
whose present data field encodes to zero bytes). -/
theorem C3_framer (E : Encoders α) (hE : E.Lawful) (fs : List (Frame α))
    (hfs : ∀ f ∈ fs, validB E f = true ∧ (serializeFrame f E).length < 2 ^ 24) :
    deserializeFrames ((fs.map (fun f => serializeFrameWithLength f E)).flatten) E =
      Except.ok (fs, []) :=
  deserializeFrames_spec E hE fs hfs

/-- Witness for C3 at a concrete two-frame concatenation. -/
theorem C3_framer_witness :
    deserializeFrames (([Frame.cancel 2 0, Frame.requestN 1 0 7].map
        (fun f => serializeFrameWithLength f UnaryEncoders)).flatten) UnaryEncoders =
      Except.ok ([Frame.cancel 2 0, Frame.requestN 1 0 7], []) :=
  C3_framer UnaryEncoders UnaryEncoders_lawful
    [Frame.cancel 2 0, Frame.requestN 1 0 7] (by decide)

/-- Counterexample to C3 as stated: the length-prefixed serialization of a
PAYLOAD frame with zero-byte-encoding data parses to a different frame
list (the data field comes back absent). -/
theorem C3_failing :
    deserializeFrames (serializeFrameWithLength (Frame.payload 1 0 none (some ([] : List Nat)))
        UnaryEncoders) UnaryEncoders ≠
      Except.ok ([Frame.payload 1 0 none (some [])], []) := by
  have h1 : serializeFrameWithLength (Frame.payload 1 0 none (some ([] : List Nat)))
      UnaryEncoders =
      (([Frame.payload 1 0 none none].map
        (fun f => serializeFrameWithLength f UnaryEncoders)).flatten) := by rfl
  rw [h1, deserializeFrames_spec UnaryEncoders UnaryEncoders_lawful
      [Frame.payload 1 0 none none] (by decide)]
  simp

/-- C4: the SETUP-frame parser succeeds exactly when the stream id is 0,
the keepAlive read (signed) at offset 10 lies in `[0, MAX_KEEPALIVE]`, the
lifetime read at offset 14 lies in `[0, MAX_LIFETIME]`, and the resume
token length read (signed 16-bit) at offset 18 lies in
`[0, MAX_RESUME_LENGTH]`; otherwise it raises an InvariantViolation. -/
theorem C4_setupChecks (buf : Buffer) (sid : Int) (fl : Nat) (E : Encoders α) :
    (∃ g, deserializeSetupFrame buf sid fl E = Except.ok g) ↔
      (sid = 0 ∧ 0 ≤ readInt32 buf 10 ∧ readInt32 buf 10 ≤ MAX_KEEPALIVE ∧
        0 ≤ readInt32 buf 14 ∧ readInt32 buf 14 ≤ MAX_LIFETIME ∧
        0 ≤ readInt16 buf 18 ∧ readInt16 buf 18 ≤ MAX_RESUME_LENGTH) := by
  simp only [deserializeSetupFrame, FRAME_HEADER_SIZE]
  split_ifs with h1 h2 h3 h4
  · exact iff_of_true ⟨_, rfl⟩
      ⟨h1, h2.1, h2.2, h3.1, h3.2, h4.1, h4.2⟩
  · exact iff_of_false (by simp) (fun hr => h4 ⟨hr.2.2.2.2.2.1, hr.2.2.2.2.2.2⟩)
  · exact iff_of_false (by simp) (fun hr => h3 ⟨hr.2.2.2.1, hr.2.2.2.2.1⟩)
  · exact iff_of_false (by simp) (fun hr => h2 ⟨hr.2.1, hr.2.2.1⟩)
  · exact iff_of_false (by simp) (fun hr => h1 hr.1)

/-- C5: for the payload-bearing frames, the encoded payload-section size
is the data size plus, when the METADATA flag is set, the 3-byte length
prefix plus the metadata size (absent fields contributing 0); on emit a
present metadata field is silently dropped when the flag is clear, and a
zero-length 24-bit prefix is written when the flag is set but metadata is
absent. -/
theorem C5_payloadSection (E : Encoders α) (fl : Nat) (md d : Option α) (pre : Buffer)
    (hmd : ByteBounded (optBytes E.metadata md)) (hd : ByteBounded (optBytes E.data d)) :
    getPayloadLength E fl md d =
      optionByteLength E.data d +
        (if isMetadata fl then UINT24_SIZE + optionByteLength E.metadata md else 0) ∧
    (isMetadata fl = false →
      writePayload E fl md d (pre ++ List.replicate (getPayloadLength E fl md d) 0)
          pre.length = pre ++ optBytes E.data d) ∧
    (isMetadata fl = true → md = none →
      writePayload E fl md d (pre ++ List.replicate (getPayloadLength E fl md d) 0)
          pre.length = pre ++ beBytes 3 0 ++ optBytes E.data d) := by
  have hmb : ∀ m, md = some m → ∀ b ∈ E.metadata.enc m, b < 256 := by
    intro m hm; subst hm; exact hmd
  have hdb : ∀ dd, d = some dd → ∀ b ∈ E.data.enc dd, b < 256 := by
    intro dd hdd; subst hdd; exact hd
  refine ⟨?_, ?_, ?_⟩
  · rcases hm : isMetadata fl with _ | _ <;> cases md <;> cases d <;>
      simp [getPayloadLength, optionByteLength, Encoder.byteLength, hm, UINT24_SIZE] <;>
      omega
  · intro hm
    rw [writePayload_eq E fl md d pre pre.length rfl hmb hdb, payloadBytes, hm]
    simp
  · intro hm hnone
    subst hnone
    rw [writePayload_eq E fl none d pre pre.length rfl hmb hdb, payloadBytes, hm]
    simp [optBytes, optionByteLength]

/-- Witness for C5 with the METADATA flag set and metadata absent. -/
theorem C5_payloadSection_witness :
    getPayloadLength UnaryEncoders 256 none (some [2]) =
      optionByteLength (UnaryEncoders).data (some [2]) +
        (if isMetadata 256 then
          UINT24_SIZE + optionByteLength (UnaryEncoders).metadata none else 0) ∧
    (isMetadata 256 = false →
      writePayload UnaryEncoders 256 none (some [2])
          ([7] ++ List.replicate (getPayloadLength UnaryEncoders 256 none (some [2])) 0)
          (List.length [7]) = [7] ++ optBytes (UnaryEncoders).data (some [2])) ∧
    (isMetadata 256 = true → (none : Option (List Nat)) = none →
      writePayload UnaryEncoders 256 none (some [2])
          ([7] ++ List.replicate (getPayloadLength UnaryEncoders 256 none (some [2])) 0)
          (List.length [7]) =
        [7] ++ beBytes 3 0 ++ optBytes (UnaryEncoders).data (some [2])) :=
  C5_payloadSection UnaryEncoders 256 none (some [2]) [7]
    (fun b hb => absurd hb (List.not_mem_nil b)) (fun b hb => unaryEnc_lt [2] b hb)

/-- C6: for every type tag below 64 and flags below 1024, the header word
the serializer writes is `(t <<< 10) ||| (f &&& 0x3FF) = t * 1024 + f`;
it fits 16 bits, reads back from offset 4 of the written header, and
shifting right by 10 and masking with 0x3FF recover exactly `t` and `f`. -/
theorem C6_headerWord (sid : Int) (t fl N : Nat) (ht : t < 64) (hfl : fl < 1024)
    (hN : 6 ≤ N) :
    t <<< FRAME_TYPE_OFFFSET ||| fl &&& FLAGS_MASK = t * 1024 + fl ∧
    readUint16 (writeHeader sid t fl (allocate N)).1 4 = t * 1024 + fl ∧
    (t * 1024 + fl) >>> FRAME_TYPE_OFFFSET = t ∧
    (t * 1024 + fl) &&& FLAGS_MASK = fl := by
  obtain ⟨hw, hlt, hshr, hand⟩ := headerWord_spec t fl ht hfl
  refine ⟨hw, ?_, hshr, hand⟩
  simp only [writeHeader_allocate sid t fl N hN]
  exact header_readUint16 sid t fl _ ht hfl

/-- Witness for C6 at type 5, flags 3. -/
theorem C6_headerWord_witness :
    (5 : Nat) <<< FRAME_TYPE_OFFFSET ||| 3 &&& FLAGS_MASK = 5 * 1024 + 3 ∧
    readUint16 (writeHeader 3 5 3 (allocate 6)).1 4 = 5 * 1024 + 3 ∧
    (5 * 1024 + 3 : Nat) >>> FRAME_TYPE_OFFFSET = 5 ∧
    (5 * 1024 + 3 : Nat) &&& FLAGS_MASK = 3 :=
  C6_headerWord 3 5 3 6 (by decide) (by decide) (by decide)

/-- `beBytes 3` spelt out: most significant byte first. -/
theorem beBytes3_eq (n : Nat) :
    beBytes 3 n = [n / 2 ^ 16 % 256, n / 2 ^ 8 % 256, n % 256] := by
  have h : beBytes 3 n =
      [n / 2 ^ (8 * 2) % 256, n / 2 ^ (8 * 1) % 256, n / 2 ^ (8 * 0) % 256] := rfl
  rw [h]
  norm_num

/-- C7: writing any `n < 2^24` with `writeUint24` at offset 0 and reading
it back with `readUint24` yields `n`; the three bytes written are
big-endian, most significant first; and `writeUint24` truncates every
value to its low 24 bits (`value &&& 0xFFFFFF`). -/
theorem C7_uint24 (n v N : Nat) (buf : Buffer) (off : Nat)
    (hn : n < 2 ^ 24) (hN : 3 ≤ N) :
    readUint24 (writeUint24 (allocate N) n 0) 0 = n ∧
    writeUint24 (allocate N) n 0 =
      [n / 2 ^ 16, n / 2 ^ 8 % 2 ^ 8, n % 2 ^ 8] ++ List.replicate (N - 3) 0 ∧
    writeUint24 buf v off = writeUint24 buf (v &&& 0xFFFFFF) off := by
  have hw : writeUint24 (allocate N) n 0 = beBytes 3 n ++ List.replicate (N - 3) 0 := by
    rw [writeUint24_eq, allocate,
      writeBytes_step0 N _ (by rw [beBytes_length]; omega) (beBytes_lt _ _), beBytes_length]
  have hdiv : n / 2 ^ 16 < 256 := Nat.div_lt_of_lt_mul (by norm_num at hn ⊢; omega)
  refine ⟨?_, ?_, ?_⟩
  · rw [hw]
    have hb : ByteBounded ([] ++ beBytes 3 n ++ List.replicate (N - 3) 0) := by
      intro b hb
      simp only [List.nil_append, List.mem_append] at hb
      rcases hb with hb | hb
      · exact beBytes_lt _ _ b hb
      · rw [List.eq_of_mem_replicate hb]; norm_num
    have h := readUint24_at [] n (List.replicate (N - 3) 0) 0 rfl hn hb
    simpa using h
  · rw [hw, beBytes3_eq, Nat.mod_eq_of_lt hdiv]
    norm_num
  · rw [writeUint24_eq, writeUint24_eq]
    apply writeBytes_congr
    have h24 : v &&& 0xFFFFFF = v % 2 ^ 24 := by
      rw [show (0xFFFFFF : Nat) = 2 ^ 24 - 1 from by norm_num,
        Nat.and_pow_two_sub_one_eq_mod]
    rw [h24]
    have hb : beBytes 3 (v % 2 ^ 24) = beBytes 3 v := by
      rw [beBytes3_eq, beBytes3_eq]
      have e1 : v % 2 ^ 24 % 256 = v % 256 := Nat.mod_mod_of_dvd v (by norm_num)
      have e2 : v % 2 ^ 24 / 2 ^ 16 % 256 = v / 2 ^ 16 % 256 := by
        rw [show (2 : Nat) ^ 24 = 2 ^ 16 * 2 ^ 8 from by norm_num,
          Nat.mod_mul_right_div_self]
        rw [Nat.mod_mod_of_dvd _ (by norm_num : (256 : Nat) ∣ 2 ^ 8)]
      have e3 : v % 2 ^ 24 / 2 ^ 8 % 256 = v / 2 ^ 8 % 256 := by
        rw [show (2 : Nat) ^ 24 = 2 ^ 8 * 2 ^ 16 from by norm_num,
          Nat.mod_mul_right_div_self]
        exact Nat.mod_mod_of_dvd _ (by norm_num)
      rw [e1, e2, e3]
    rw [hb]

/-- Witness for C7 at n = 1193046 (0x123456). -/
theorem C7_uint24_witness :
    readUint24 (writeUint24 (allocate 3) 1193046 0) 0 = 1193046 ∧
    writeUint24 (allocate 3) 1193046 0 =
      [1193046 / 2 ^ 16, 1193046 / 2 ^ 8 % 2 ^ 8, 1193046 % 2 ^ 8] ++
        List.replicate (3 - 3) 0 ∧
    writeUint24 [1, 2, 3] 16777221 1 = writeUint24 [1, 2, 3] (16777221 &&& 0xFFFFFF) 1 :=
  C7_uint24 1193046 16777221 3 [1, 2, 3] 1 (by decide) (by decide)

/-- C8: the REQUEST_STREAM, REQUEST_CHANNEL and REQUEST_N parsers succeed
exactly when the stream id is positive and the requestN read as a signed
32-bit big-endian integer at offset 6 is positive; a requestN that is
zero or negative raises an InvariantViolation. -/
theorem C8_requestNChecks (buf : Buffer) (sid : Int) (fl : Nat) (E : Encoders α) :
    ((∃ g, deserializeRequestStreamFrame buf sid fl E = Except.ok g) ↔
      (0 < sid ∧ 0 < readInt32 buf 6)) ∧
    ((∃ g, deserializeRequestChannelFrame buf sid fl E = Except.ok g) ↔
      (0 < sid ∧ 0 < readInt32 buf 6)) ∧
    ((∃ g, deserializeRequestNFrame buf sid fl E = Except.ok g) ↔
      (0 < sid ∧ 0 < readInt32 buf 6)) := by
  refine ⟨?_, ?_, ?_⟩ <;>
    (simp only [deserializeRequestStreamFrame, deserializeRequestChannelFrame,
        deserializeRequestNFrame, FRAME_HEADER_SIZE, gt_iff_lt]
     split_ifs with h1 h2
     · exact iff_of_true ⟨_, rfl⟩ ⟨h1, h2⟩
     · exact iff_of_false (by simp) (fun hr => h2 hr.2)
     · exact iff_of_false (by simp) (fun hr => h1 hr.1))

/-- C9: for the UTF-8 encoder and the raw-buffer encoder of
RSocketEncoding.js, the offset returned by `encode(value, buffer, offset)`
minus the given offset — the number of bytes written — equals
`byteLength(value)`. -/
theorem C9_encoderByteLength (v : Str) (w buf : Buffer) (off : Nat) :
    (UTF8Encoder_encode v buf off).2 - off = UTF8Encoder_byteLength v ∧
    (BufferEncoder_encode w buf off).2 - off = BufferEncoder_byteLength w := by
  constructor
  · simp only [UTF8Encoder_encode, writeUTF8String, UTF8Encoder_byteLength,
      utf8Encode_length]
    omega
  · simp only [BufferEncoder_encode, BufferEncoder_byteLength]
    omega

/-- C10: serialization is total — for every frame of the eleven supported
kinds, whatever its field values (stream ids, requestN, keepAlive,
lifetime, code or resume-token length out of range included),
`serializeFrame` returns a buffer of exactly the documented length, and
`serializeFrameWithLength` that plus the 3-byte prefix; no range check
runs on the emit path. -/
theorem C10_serializeTotal (E : Encoders α) (f : Frame α) :
    (serializeFrame f E).length = serializedLength E f ∧
    (serializeFrameWithLength f E).length = serializedLength E f + UINT24_SIZE := by
  refine ⟨serializeFrame_length E f, ?_⟩
  simp only [serializeFrameWithLength, copyTo, writeUint24_eq, writeBytes_length,
    allocate, List.length_replicate, serializeFrame_length]
